import Mathlib

/-!
# Verification of the fizz OpenAPI 3 generator and tonic binder

A shallow embedding of the core of the `wI2L/fizz` repository:
* `openapi/gen.go` — spec generation (`AddOperation`, schema builder,
  struct flattening, parameter extraction),
* `openapi/types.go` and its sibling type-mapping file — data-type
  classification and string-to-value conversion,
* the validation setters file (`setSchemaLen`/`Max`/`Min`/`Eq`),
* `tonic/handler.go` — request binding (`bind`, `bindStringValue`).

Go's runtime reflection is embedded as an explicit type universe `GoType`
together with a `TypeEnv` resolving named struct types to their field lists
(Go types may be cyclic through struct names, so struct bodies live in the
environment rather than in the type term).  The modelled universe covers the
kinds exercised by the verified properties: booleans, strings, the ten
integer kinds, pointers, slices, arrays, maps, structs and one unsupported
kind (func).  Floating-point kinds and the `time.Time`/`time.Duration`
special cases recognised by assignability in the source are outside the
modelled universe, so the corresponding branches of the source functions do
not appear; none of the verified properties exercises them.

Mutable generator state (`Generator.api`, `Generator.schemaTypes`,
`Generator.errors`, the `logrus` warning log) is threaded explicitly as a
`Gen` value.  Recursion over possibly-cyclic struct graphs is made total
with an explicit fuel parameter: a result of `none` means the fuel ran out,
`some` is the value the Go program returns.
-/

namespace Fizz

/-! ## Go standard library fragments (strings, strconv) -/

/-- Model of `strings.Title` as used on Go package and type identifiers (no internal
spaces): upper-case the first character. -/
def goTitle (s : String) : String :=
  match s.data with
  | [] => ""
  | c :: cs => String.mk (c.toUpper :: cs)

/-- Model of `strconv.ParseBool`: accepts the fixed literal set, error otherwise
(`none` models the error). -/
def goParseBool (s : String) : Option Bool :=
  match s with
  | "1" | "t" | "T" | "true" | "TRUE" | "True" => some true
  | "0" | "f" | "F" | "false" | "FALSE" | "False" => some false
  | _ => none

/-- Decimal digit run to a natural number; `none` on an empty run or any
non-digit character (this is `strconv`'s syntax check for base 10, where
signs have already been stripped by the caller). -/
def decDigits? (cs : List Char) : Option Nat :=
  match cs with
  | [] => none
  | _ =>
    cs.foldl
      (fun acc c =>
        match acc with
        | some n => if c.isDigit then some (n * 10 + (c.toNat - 48)) else none
        | none => none)
      (some 0)

/-- Model of `strconv.ParseUint(s, 10, bits)`: no sign allowed, decimal digits only,
result must fit in `bits` bits. -/
def goParseUint (s : String) (bits : Nat) : Except String Nat :=
  match decDigits? s.data with
  | none => .error ("invalid syntax: " ++ s)
  | some n => if n < 2 ^ bits then .ok n else .error ("value out of range: " ++ s)

/-- Model of `strconv.ParseInt(s, 10, bits)`: optional sign, decimal digits, result in
the signed `bits`-bit range. -/
def goParseInt (s : String) (bits : Nat) : Except String Int :=
  let signed : Bool × List Char :=
    match s.data with
    | '-' :: rest => (true, rest)
    | '+' :: rest => (false, rest)
    | cs => (false, cs)
  match decDigits? signed.2 with
  | none => .error ("invalid syntax: " ++ s)
  | some n =>
    let v : Int := if signed.1 then -(n : Int) else (n : Int)
    if -(2 ^ (bits - 1) : Int) ≤ v ∧ v < (2 ^ (bits - 1) : Int) then .ok v
    else .error ("value out of range: " ++ s)

/-- Model of `strconv.Atoi` = `ParseInt(s, 10, 0)`; bit size 0 means the platform int
size, 64 here. -/
def goAtoi (s : String) : Except String Int := goParseInt s 64

/-! ## The Go type universe -/

/-- Model of `reflect.Kind` restricted to the modelled universe. -/
inductive GoKind where
  | boolK | stringK
  | intK | int8K | int16K | int32K | int64K
  | uintK | uint8K | uint16K | uint32K | uint64K
  | ptrK | sliceK | arrayK | mapK | structK | funcK
deriving DecidableEq, Repr

/-- A Go type.  Struct bodies are resolved through a `TypeEnv` via their
identifier, because Go struct types may refer to themselves. -/
inductive GoType where
  | boolT | stringT
  | intT | int8T | int16T | int32T | int64T
  | uintT | uint8T | uint16T | uint32T | uint64T
  | ptrT (t : GoType)
  | sliceT (t : GoType)
  | arrayT (n : Nat) (t : GoType)
  | mapT (key val : GoType)
  | structT (id : String)
  | funcT
deriving DecidableEq, Repr

def GoType.kind : GoType → GoKind
  | .boolT => .boolK
  | .stringT => .stringK
  | .intT => .intK
  | .int8T => .int8K
  | .int16T => .int16K
  | .int32T => .int32K
  | .int64T => .int64K
  | .uintT => .uintK
  | .uint8T => .uint8K
  | .uint16T => .uint16K
  | .uint32T => .uint32K
  | .uint64T => .uint64K
  | .ptrT _ => .ptrK
  | .sliceT _ => .sliceK
  | .arrayT _ _ => .arrayK
  | .mapT _ _ => .mapK
  | .structT _ => .structK
  | .funcT => .funcK

/-- Model of `reflect.Type.Bits` for the numeric kinds (Go `int`/`uint` are 64-bit on
the target platform); 0 for non-numeric kinds, on which Go would panic but
which no caller reaches. -/
def GoType.bits : GoType → Nat
  | .intT | .int64T | .uintT | .uint64T => 64
  | .int8T | .uint8T => 8
  | .int16T | .uint16T => 16
  | .int32T | .uint32T => 32
  | _ => 0

/-- One level of pointer dereference, as in `if t.Kind() == reflect.Ptr
{ t = t.Elem() }`. -/
def GoType.deref1 : GoType → GoType
  | .ptrT t => t
  | t => t

/-- A struct field as seen through `reflect.StructField`: name, type, the
struct tag as a lookup list, `PkgPath` (non-empty iff unexported) and the
`Anonymous` flag. -/
structure GoStructField where
  name : String
  typ : GoType
  tags : List (String × String) := []
  pkgPath : String := ""
  anonymous : Bool := false
deriving DecidableEq, Repr

/-- Model of `reflect.StructTag.Lookup`. -/
def tagLookup (tags : List (String × String)) (key : String) : Option String :=
  (tags.find? (fun p => p.1 = key)).map (·.2)

/-- Model of `reflect.StructTag.Get`: like `Lookup` but with the empty string for an
absent key. -/
def tagGet (tags : List (String × String)) (key : String) : String :=
  (tagLookup tags key).getD ""

/-- The body of a named (or anonymous) struct type: its package, its declared
name (empty for anonymous struct types, for which `Generator.typeName`
yields the empty name) and its fields. -/
structure StructDef where
  pkg : String
  name : String
  fields : List GoStructField
deriving DecidableEq, Repr

/-- The reflection environment: resolves a `GoType.structT` identifier to its
definition.  Immutable during generation, like Go's runtime type data. -/
abbrev TypeEnv := List (String × StructDef)

def lookupStruct (env : TypeEnv) (id : String) : Option StructDef :=
  (env.find? (fun p => p.1 = id)).map (·.2)

/-- Model of `t.NumField()`/`t.Field(i)` iteration source: the declared fields of a
struct type, `[]` for non-struct types (never reached on them). -/
def fieldsOf (env : TypeEnv) : GoType → List GoStructField
  | .structT id => ((lookupStruct env id).map (·.fields)).getD []
  | _ => []

/-! ## Values (for tag defaults, enums and request binding) -/

/-- A converted Go value, as produced by `stringToType` and
`bindStringValue`.  Structs, slices and pointers appear only on the binding
side. -/
inductive GoValue where
  | vStr (s : String)
  | vBool (b : Bool)
  | vInt (n : Int)
  | vUint (n : Nat)
deriving DecidableEq, Repr

/-! ## openapi data-type classification (`DataTypeFromGo` and friends) -/

/-- The `DataType` constants of the openapi package. -/
inductive DataType where
  | TypeInteger | TypeLong | TypeFloat | TypeDouble | TypeString
  | TypeByte | TypeBinary | TypeBoolean | TypeDate | TypeDateTime
  | TypePassword | TypeUnsupported | TypeComplex
deriving DecidableEq, Repr

/-- Model of `DataType.Type()` — the OAS type string table. -/
def DataType.typeStr : DataType → String
  | .TypeInteger => "integer"
  | .TypeLong => "integer"
  | .TypeFloat => "number"
  | .TypeDouble => "number"
  | .TypeString => "string"
  | .TypeByte => "string"
  | .TypeBinary => "string"
  | .TypeBoolean => "boolean"
  | .TypeDate => "string"
  | .TypeDateTime => "string"
  | .TypePassword => "string"
  | .TypeComplex => "string"
  | .TypeUnsupported => ""

/-- Model of `DataType.Format()` — the OAS format string table. -/
def DataType.formatStr : DataType → String
  | .TypeInteger => "int32"
  | .TypeLong => "int64"
  | .TypeFloat => "float"
  | .TypeDouble => "double"
  | .TypeString => ""
  | .TypeByte => "byte"
  | .TypeBinary => "binary"
  | .TypeBoolean => ""
  | .TypeDate => "date"
  | .TypeDateTime => "date-time"
  | .TypePassword => "password"
  | .TypeComplex => ""
  | .TypeUnsupported => ""

/-- Model of `DataTypeFromGo`: dereference one pointer level, recognise `[]byte` by
assignability, then switch over the kind.  The `time.Time` assignability
check of the source precedes the byte-slice check but that type is outside
the modelled universe.  Float kinds are likewise outside the universe.  Note
that a doubly-indirect pointer still has kind Ptr after the single
dereference and falls through to `TypeComplex`, exactly as in the source. -/
def DataTypeFromGo (t : GoType) : DataType :=
  let t := t.deref1
  if t = .sliceT .uint8T then .TypeByte
  else
    match t with
    | .int64T | .uint64T => .TypeLong
    | .intT | .int8T | .int16T | .int32T => .TypeInteger
    | .uintT | .uint8T | .uint16T | .uint32T => .TypeInteger
    | .boolT => .TypeBoolean
    | .stringT => .TypeString
    | .funcT => .TypeUnsupported
    | _ => .TypeComplex

/-- Model of `stringToType` (openapi/types.go): convert a tag-supplied string to the
field's type.  The leading `time.Time`/`time.Duration` assignability
branches of the source concern types outside the modelled universe.  In this
vintage of the file an invalid boolean literal is coerced to `false` rather
than reported (`v, _ := strconv.ParseBool(val); return v, nil`).  Any other
kind — including slices, arrays, maps and structs — falls through to the
`unknown type` error. -/
def stringToType (val : String) (t : GoType) : Except String GoValue :=
  match t.kind with
  | .boolK => .ok (.vBool ((goParseBool val).getD false))
  | .stringK => .ok (.vStr val)
  | .intK | .int8K | .int16K | .int32K | .int64K =>
    (goParseInt val t.bits).map .vInt
  | .uintK | .uint8K | .uint16K | .uint32K | .uint64K =>
    (goParseUint val t.bits).map .vUint
  | _ => .error "unknown type"

/-! ## The OpenAPI object model (openapi/spec.go)

Only the fields the generator reads or writes are modelled; fields that
exist purely for marshaling (servers, security, extensions, styles) are
omitted.  Go's `*SchemaOrRef` struct embeds both a `*Schema` and a
`*Reference`; the generator only ever sets exactly one of the two, so it is
an inductive sum here.  Schemas are recursive through `items`, `properties`
and `additionalProperties`, hence the functor/fixpoint presentation. -/

/-- The `Schema` struct with `SchemaOrRef` abstracted, so that the recursive
knot can be tied by a nested inductive.  Numeric JSON-validation fields are
Go `int`s whose zero value means "unset" (they carry `omitempty`). -/
structure SchemaF (σ : Type) where
  type : String := ""
  items : Option σ := none
  -- Go's Properties is a map with *SchemaOrRef values, which may be nil:
  -- the generator stores the result of newSchemaFromStructField unchecked.
  properties : List (String × Option σ) := []
  additionalProperties : Option σ := none
  description : String := ""
  format : String := ""
  defaultVal : Option GoValue := none
  maximum : Int := 0
  minimum : Int := 0
  maxLength : Int := 0
  minLength : Int := 0
  maxItems : Int := 0
  minItems : Int := 0
  maxProperties : Int := 0
  minProperties : Int := 0
  required : List String := []
  enum : List GoValue := []
  nullable : Bool := false
  deprecated : Bool := false
deriving Repr

/-- Model of `SchemaOrRef`: an inlined schema or a `Reference` (its `Ref` string). -/
inductive SchemaOrRef where
  | schema (s : SchemaF SchemaOrRef)
  | ref (r : String)
deriving Repr

/-- The `Schema` struct proper. -/
abbrev Schema := SchemaF SchemaOrRef

/-- Model of `Parameter` (openapi/spec.go).  The source field `In` keeps its name. -/
structure Parameter where
  name : String
  In : String
  description : String := ""
  required : Bool := false
  deprecated : Bool := false
  allowEmptyValue : Bool := false
  schema : Option SchemaOrRef := none
deriving Repr

/-- Model of `MediaType`: the schema attached to one media type of a body or
response. -/
structure MediaTypeObj where
  schema : Option SchemaOrRef := none
deriving Repr

/-- Model of `RequestBody`. -/
structure RequestBody where
  content : List (String × MediaTypeObj) := []
deriving Repr

/-- Model of `Header` of a response. -/
structure HeaderObj where
  description : String := ""
  schema : Option SchemaOrRef := none
deriving Repr

/-- Model of `Response`. -/
structure Response where
  description : String := ""
  content : List (String × MediaTypeObj) := []
  headers : List (String × HeaderObj) := []
deriving Repr

/-- Model of `Operation`.  `op.Parameters` is `[]*ParameterOrRef` in the source but
the generator only ever stores inlined `Parameter` values in it, so the
reference alternative is dropped. -/
structure Operation where
  tags : List String := []
  summary : String := ""
  description : String := ""
  id : String := ""
  parameters : List Parameter := []
  requestBody : Option RequestBody := none
  responses : List (String × Response) := []
  deprecated : Bool := false
deriving Repr

/-- Model of `PathItem`: one operation slot per HTTP method. -/
structure PathItem where
  GET : Option Operation := none
  PUT : Option Operation := none
  POST : Option Operation := none
  DELETE : Option Operation := none
  OPTIONS : Option Operation := none
  HEAD : Option Operation := none
  PATCH : Option Operation := none
  TRACE : Option Operation := none
deriving Repr

/-- Model of `ResponseHeader` (tonic handler info): a declared response header.
`Model` is an `interface{}` in the source; `none` models a nil model. -/
structure ResponseHeader where
  name : String
  description : String := ""
  model : Option GoType := none
deriving Repr

/-- Model of `OperationReponse` (sic, source name): an additional declared
response. -/
structure OperationReponse where
  code : String
  description : String := ""
  model : Option GoType := none
  headers : List ResponseHeader := []
deriving Repr

/-- Model of `OperationInfo`: the tonic route options consumed by
`AddOperation`. -/
structure OperationInfo where
  statusCode : Int := 0
  statusDescription : String := ""
  headers : List ResponseHeader := []
  summary : String := ""
  description : String := ""
  deprecated : Bool := false
  responses : List OperationReponse := []
deriving Repr

/-! ## Generator state -/

/-- Model of `SpecGenConfig`: the tag names the generator reads. -/
structure SpecGenConfig where
  validatorTag : String
  pathLocationTag : String
  queryLocationTag : String
  headerLocationTag : String
  enumTag : String
  defaultTag : String
deriving Repr

/-- The tonic defaults fizz wires in (`tonic` package constants). -/
def tonicConfig : SpecGenConfig :=
  { validatorTag := "validate"
    pathLocationTag := "path"
    queryLocationTag := "query"
    headerLocationTag := "header"
    enumTag := "enum"
    defaultTag := "default" }

/-- Model of `tonic.MediaType()`: the render media type, `application/json` by
default; the generator maps it through `mediaTags` to the `json` struct-tag
name. -/
def tonicMediaType : String := "application/json"

/-- Model of `mediaTags`: media type → marshaling struct-tag name. -/
def mediaTags : String → Option String
  | "application/json" => some "json"
  | "application/xml" => some "xml"
  | _ => none

/-- The mutable state of a `Generator`: the reflection environment (Go's
runtime type data, immutable), the tag configuration, the set of struct
types already seen (`schemaTypes`), the components schema registry
(`api.Components.Schemas`), the path map (`api.Paths`), the accumulated
generation errors (`Generator.errors`) and the `logrus` warning log. -/
structure Gen where
  env : TypeEnv
  config : SpecGenConfig := tonicConfig
  schemaTypes : List GoType := []
  schemas : List (String × SchemaOrRef) := []
  paths : List (String × PathItem) := []
  errors : List String := []
  warnings : List String := []
deriving Repr

/-- Model of `Generator.error`: record a non-fatal generation error. -/
def Gen.addError (g : Gen) (msg : String) : Gen :=
  { g with errors := g.errors ++ [msg] }

/-- Record a batch of non-fatal generation errors in order. -/
def Gen.addErrors (g : Gen) (msgs : List String) : Gen :=
  { g with errors := g.errors ++ msgs }

/-- Model of `logrus.Warnf`: record a warning on the log. -/
def Gen.addWarning (g : Gen) (msg : String) : Gen :=
  { g with warnings := g.warnings ++ [msg] }

/-- Association-list insert modelling Go map assignment `m[k] = v`
(replaces an existing key, appends a fresh one). -/
def listInsert {α : Type} (l : List (String × α)) (k : String) (v : α) :
    List (String × α) :=
  if (l.find? (fun p => p.1 = k)).isSome then
    l.map (fun p => if p.1 = k then (k, v) else p)
  else l ++ [(k, v)]

/-- Go map lookup. -/
def listGet {α : Type} (l : List (String × α)) (k : String) : Option α :=
  (l.find? (fun p => p.1 = k)).map (·.2)

/-- Model of `Generator.typeName`: `strings.Title(pkg) + strings.Title(typ)` from
`t.String()`, with a `main` package elided.  Only struct types carry a
package-qualified name; the generator never asks for the name of another
kind (doing so would slice out of bounds in the source), and an anonymous
struct type yields the empty name, which the callers treat as "unnamed". -/
def Gen.typeName (g : Gen) (t : GoType) : String :=
  match t with
  | .structT id =>
    match lookupStruct g.env id with
    | some d =>
      let pkg := if d.pkg = "main" then "" else d.pkg
      goTitle pkg ++ goTitle d.name
    | none => ""
  | _ => ""

/-- Kind names for error messages (`reflect.Kind.String`). -/
def GoKind.str : GoKind → String
  | .boolK => "bool"
  | .stringK => "string"
  | .intK => "int"
  | .int8K => "int8"
  | .int16K => "int16"
  | .int32K => "int32"
  | .int64K => "int64"
  | .uintK => "uint"
  | .uint8K => "uint8"
  | .uint16K => "uint16"
  | .uint32K => "uint32"
  | .uint64K => "uint64"
  | .ptrK => "ptr"
  | .sliceK => "slice"
  | .arrayK => "array"
  | .mapK => "map"
  | .structK => "struct"
  | .funcK => "func"

/-! ## Generator helpers (gen.go and the validation setters file) -/

/-- Model of `fieldNameFromTag`: serialization name of a struct field from
its marshaling tag; the field's own name when the tag is absent or empty,
the empty string (hide) when the tag renames it to `-`. -/
def fieldNameFromTag (sf : GoStructField) (tagName : String) : String :=
  match tagLookup sf.tags tagName with
  | none => sf.name
  | some v =>
    match v.trim.splitOn "," with
    | [] => sf.name
    | name :: _ =>
      if name = "" then sf.name
      else if name = "-" then ""
      else name

/-- Option scan of `isStructFieldRequired`: stop at `dive`/`keys`, accept at
`required`. -/
def requiredOptsScan : List String → Bool
  | [] => false
  | o :: rest =>
    if o = "dive" ∨ o = "keys" then false
    else if o = "required" then true
    else requiredOptsScan rest

/-- Model of `Generator.isStructFieldRequired`. -/
def Gen.isStructFieldRequired (g : Gen) (sf : GoStructField) : Bool :=
  match tagLookup sf.tags g.config.validatorTag with
  | some t => requiredOptsScan (t.splitOn ",")
  | none => false

/-- Model of `isNumber` (validation setters file); float kinds are outside the
modelled universe. -/
def isNumber (t : GoType) : Bool :=
  match t.kind with
  | .intK | .int8K | .int16K | .int32K | .int64K
  | .uintK | .uint8K | .uint16K | .uint32K | .uint64K => true
  | _ => false

/-- Model of `isString`. -/
def isString (t : GoType) : Bool := t.kind = .stringK

/-- Model of `isMap`. -/
def isMap (t : GoType) : Bool := t.kind = .mapK

/-- Model of `setSchemaLen`. -/
def setSchemaLen (schema : Schema) (n : Int) (t : GoType) : Schema :=
  if isNumber t then { schema with minimum := n, maximum := n }
  else if isString t then
    if n ≥ 0 then { schema with minLength := n, maxLength := n } else schema
  else if isMap t then
    if n ≥ 0 then { schema with minProperties := n, maxProperties := n } else schema
  else if t.kind = .sliceK ∨ t.kind = .arrayK then
    if n ≥ 0 then { schema with minItems := n, maxItems := n } else schema
  else schema

/-- Model of `setSchemaMax`. -/
def setSchemaMax (schema : Schema) (n : Int) (t : GoType) : Schema :=
  if isNumber t then { schema with maximum := n }
  else if isString t then
    if n ≥ 0 then { schema with maxLength := n } else schema
  else if isMap t then
    if n ≥ 0 then { schema with maxProperties := n } else schema
  else if t.kind = .sliceK ∨ t.kind = .arrayK then
    if n ≥ 0 then { schema with maxItems := n } else schema
  else schema

/-- Model of `setSchemaMin`. -/
def setSchemaMin (schema : Schema) (n : Int) (t : GoType) : Schema :=
  if isNumber t then { schema with minimum := n }
  else if isString t then
    if n ≥ 0 then { schema with minLength := n } else schema
  else if isMap t then
    if n ≥ 0 then { schema with minProperties := n } else schema
  else if t.kind = .sliceK ∨ t.kind = .arrayK then
    if n ≥ 0 then { schema with minItems := n } else schema
  else schema

/-- Model of `setSchemaEq`: only container sizes, numbers and strings are
unsupported by the target format. -/
def setSchemaEq (schema : Schema) (n : Int) (t : GoType) : Schema :=
  if isMap t then
    if n ≥ 0 then { schema with minProperties := n, maxProperties := n } else schema
  else if t.kind = .sliceK ∨ t.kind = .arrayK then
    if n ≥ 0 then { schema with minItems := n, maxItems := n } else schema
  else schema

/-- One `k=v` (or bare `k`) part of a validator tag, split at the first `=`
as in the source; the eight bound keys feed the schema setters, an
unparsable number is skipped. -/
def applyValidatorKV (schema : Schema) (ft : GoType) (p : String) : Schema :=
  let parts := p.splitOn "="
  let k := parts.headD ""
  let v := String.intercalate "=" parts.tail
  if k = "len" ∨ k = "max" ∨ k = "min" ∨ k = "eq" ∨ k = "gt" ∨ k = "gte" ∨
      k = "lt" ∨ k = "lte" then
    match goAtoi v with
    | .error _ => schema
    | .ok n =>
      if k = "len" then setSchemaLen schema n ft
      else if k = "max" ∨ k = "lte" then setSchemaMax schema n ft
      else if k = "min" ∨ k = "gte" then setSchemaMin schema n ft
      else if k = "lt" then setSchemaMax schema (n - 1) ft
      else if k = "gt" then setSchemaMin schema (n + 1) ft
      else setSchemaEq schema n ft
  else schema

/-- Comma-part loop of `updateSchemaValidation`: stops at the first
`dive`/`keys` token, otherwise processes the `|`-joined alternatives. -/
def validatorTagLoop (schema : Schema) (ft : GoType) : List String → Schema
  | [] => schema
  | t :: rest =>
    if t = "dive" ∨ t = "keys" then schema
    else
      validatorTagLoop ((t.splitOn "|").foldl (fun s p => applyValidatorKV s ft p) schema)
        ft rest

/-- Model of `updateSchemaValidation` (gen.go); only the configured
validator tag name is consumed from the generator. -/
def updateSchemaValidation (cfg : SpecGenConfig) (schema : Schema) (sf : GoStructField) :
    Schema :=
  let ts := tagGet sf.tags cfg.validatorTag
  if ts = "" then schema
  else validatorTagLoop schema sf.typ.deref1 (ts.splitOn ",")

/-- Model of `schemaFromComponents`: the inlined schema, or the schema the
reference points to in the components registry.  On a reference whose target
is not yet registered the source program would dereference a nil pointer;
the generator never creates such a reference in the runs considered here,
and the model returns `none` (the nil result) in that spot. -/
def Gen.schemaFromComponents (g : Gen) (sor : SchemaOrRef) : Option Schema :=
  match sor with
  | .schema s => some s
  | .ref r =>
    match r.splitOn "/" with
    | [a, b, c, d] =>
      if a = "#" ∧ b = "components" ∧ c = "schemas" ∧ d ≠ "" then
        match listGet g.schemas d with
        | some (.schema s) => some s
        | _ => none
      else none
    | _ => none

/-- Write-back counterpart of `Gen.schemaFromComponents`: the source mutates
the resolved schema through a pointer, so the updated schema lands either in
the inlined `SchemaOrRef` or in the referenced registry entry. -/
def Gen.storeResolved (g : Gen) (sor : SchemaOrRef) (s : Schema) : Gen × SchemaOrRef :=
  match sor with
  | .schema _ => (g, .schema s)
  | .ref r =>
    match r.splitOn "/" with
    | [a, b, c, d] =>
      if a = "#" ∧ b = "components" ∧ c = "schemas" ∧ d ≠ "" then
        ({ g with schemas := listInsert g.schemas d (.schema s) }, .ref r)
      else (g, .ref r)
    | _ => (g, .ref r)

/-- Enum-value loop of `newSchemaFromStructField`: each comma-separated
value is converted with `stringToType`; failures are recorded as generation
errors (returned here as the message list), successes are appended to the
enum of the resolved schema. -/
def enumLoop : List String → Schema → GoType → String → String → List String →
    List String × Schema
  | msgs, schema, _, _, _, [] => (msgs, schema)
  | msgs, schema, ft, fname, pname, val :: rest =>
    match stringToType val ft with
    | .error e =>
      enumLoop
        (msgs ++ ["openapi/gen: enum value " ++ val ++ " of field " ++ fname ++
          " in type " ++ pname ++ " cannot be converted to field's type: " ++ e])
        schema ft fname pname rest
    | .ok v => enumLoop msgs { schema with enum := schema.enum ++ [v] } ft fname pname rest

/-- Tag-driven enrichment chain of `newSchemaFromStructField` applied to the
resolved schema: default value, enum values, description, deprecated flag,
validation bounds, format override.  The deprecated computation transcribes
the source literally: `deprecated, err := strconv.ParseBool(tag)` followed by
`if err == nil { deprecated = false }` — a successful parse is overwritten
with false, and a failed parse already carries false, so the flag never
becomes true. -/
def fieldSchemaUpdate (cfg : SpecGenConfig) (schema : Schema) (sf : GoStructField)
    (required : Bool) (fname pname : String) : List String × Schema :=
  let d := tagGet sf.tags cfg.defaultTag
  let step1 : List String × Schema :=
    if d ≠ "" then
      if required then
        (["openapi/gen: field " ++ fname ++ " of type " ++ pname ++
          " cannot be required and have a default value"], schema)
      else
        match stringToType d sf.typ with
        | .error e =>
          (["openapi/gen: default value " ++ d ++ " of field " ++ fname ++
            " in type " ++ pname ++ " cannot be converted to field's type: " ++ e], schema)
        | .ok v => ([], { schema with defaultVal := some v })
    else ([], schema)
  let msgs := step1.1
  let schema := step1.2
  let es := tagGet sf.tags cfg.enumTag
  let step2 : List String × Schema :=
    if es ≠ "" then enumLoop msgs schema sf.typ fname pname (es.splitOn ",")
    else (msgs, schema)
  let msgs := step2.1
  let schema := step2.2
  let schema :=
    match tagLookup sf.tags "description" with
    | some desc => { schema with description := desc }
    | none => schema
  let parsed := goParseBool (tagGet sf.tags "deprecated")
  let deprecated := if parsed.isSome then false else parsed.getD false
  let schema := { schema with deprecated := deprecated }
  let schema := updateSchemaValidation cfg schema sf
  let schema :=
    match tagLookup sf.tags "format" with
    | some f => { schema with format := f }
    | none => schema
  (msgs, schema)

/-! ## The schema builder (gen.go), a mutually recursive family

Struct graphs may be cyclic, so the family carries fuel: each member burns
one unit on entry and hands the predecessor to every cross-call, while the
field loop walks its list at constant fuel.  `none` means the fuel ran out;
`some` is what the Go program returns (with `Option SchemaOrRef` for its
nilable pointer results). -/

mutual

/-- Model of `newSchemaFromType`: classify the (dereferenced) type and
produce a leaf schema, or delegate complex types to the recursive builder /
struct generator.  Unsupported kinds record a generation error and yield
nil. -/
def newSchemaFromType : Nat → Gen → Option GoType → Option (Gen × Option SchemaOrRef)
  | 0, _, _ => none
  | _ + 1, g, none => some (g, none)
  | fuel + 1, g, some t0 =>
    if DataTypeFromGo t0.deref1 = .TypeUnsupported then
      some (g.addError ("openapi/gen: encountered unsupported type " ++ t0.deref1.kind.str),
            none)
    else if DataTypeFromGo t0.deref1 = .TypeComplex then
      match t0.deref1.kind with
      | .sliceK | .arrayK | .mapK => buildSchemaRecursive fuel g t0.deref1
      | .structK => newSchemaFromStruct fuel g t0.deref1
      | _ =>
        some (g.addError ("openapi/gen: encountered unknown type " ++ t0.deref1.kind.str),
              none)
    else
      some (g, some (.schema { type := (DataTypeFromGo t0.deref1).typeStr,
                               format := (DataTypeFromGo t0.deref1).formatStr,
                               nullable := t0.kind = GoKind.ptrK }))
termination_by fuel _ _ => (fuel, 0)

/-- Model of `buildSchemaRecursive`: decompose pointers, maps, slices and
arrays; a map with non-string keys records an error and yields a bare
object schema. -/
def buildSchemaRecursive : Nat → Gen → GoType → Option (Gen × Option SchemaOrRef)
  | 0, _, _ => none
  | fuel + 1, g, t =>
    match t with
    | .ptrT e => buildSchemaRecursive fuel g e
    | .structT _ => newSchemaFromStruct fuel g t
    | .mapT k v =>
      if k.kind ≠ .stringK then
        some (g.addError ("openapi/gen: encountered type Map with keys of unsupported type " ++
                k.kind.str),
              some (.schema { type := "object" }))
      else
        match buildSchemaRecursive fuel g v with
        | none => none
        | some (g1, ap) =>
          some (g1, some (.schema { type := "object", additionalProperties := ap }))
    | .sliceT e =>
      match buildSchemaRecursive fuel g e with
      | none => none
      | some (g1, items) => some (g1, some (.schema { type := "array", items := items }))
    | .arrayT n e =>
      match buildSchemaRecursive fuel g e with
      | none => none
      | some (g1, items) =>
        some (g1, some (.schema { type := "array", minItems := (n : Int),
                                  maxItems := (n : Int), items := items }))
    | _ =>
      let dt := DataTypeFromGo t
      some (g, some (.schema { type := dt.typeStr, format := dt.formatStr }))
termination_by fuel _ _ => (fuel, 0)

/-- Model of `newSchemaFromStruct`: a type already seen yields a reference
immediately; otherwise a named type is registered in `schemaTypes` before
the recursive descent through its fields, and the flattened schema is stored
in the components registry under the computed name, returning a reference
(unnamed types are inlined). -/
def newSchemaFromStruct : Nat → Gen → GoType → Option (Gen × Option SchemaOrRef)
  | 0, _, _ => none
  | fuel + 1, g, t =>
    if t.kind ≠ .structK then some (g, none)
    else if t ∈ g.schemaTypes then
      some (g, some (.ref ("#/components/schemas/" ++ g.typeName t)))
    else
      -- the source computes `name := g.typeName(t)` once up front; the pure
      -- call is repeated inline here with the same value
      match flattenStructSchema fuel
          (if g.typeName t ≠ "" then { g with schemaTypes := t :: g.schemaTypes } else g)
          t t { type := "object" } with
      | none => none
      | some (g2, schema) =>
        if g.typeName t ≠ "" then
          some
            ({ g2 with
               schemas := listInsert g2.schemas (g.typeName t) (SchemaOrRef.schema schema) },
             some (.ref ("#/components/schemas/" ++ g.typeName t)))
        else some (g2, some (.schema schema))
termination_by fuel _ _ => (fuel, 0)

/-- Model of `flattenStructSchema`: walk the fields of `t`, flattening
embedded structs into the same schema (guarded against the top-most parent
type). -/
def flattenStructSchema : Nat → Gen → GoType → GoType → Schema → Option (Gen × Schema)
  | 0, _, _, _, _ => none
  | fuel + 1, g, t, parent, schema => flattenFields fuel g t parent (fieldsOf g.env t) schema
termination_by fuel _ _ _ _ => (fuel, 0)

/-- The field loop of `flattenStructSchema`.  An unexported field is
skipped; an embedded struct equal to the top-most parent is skipped with a
warning on the log; any other embedded struct is flattened recursively; a
field whose serialization name is empty makes the loop return the schema as
built so far (this is a `return`, not a `continue`, in the source); every
other field becomes a property, with its name appended to `required` when
the validator tag demands it. -/
def flattenFields : Nat → Gen → GoType → GoType → List GoStructField → Schema →
    Option (Gen × Schema)
  | 0, _, _, _, _, _ => none
  | _ + 1, g, _, _, [], schema => some (g, schema)
  | fuel + 1, g, t, parent, f :: rest, schema =>
    if f.pkgPath ≠ "" then flattenFields (fuel + 1) g t parent rest schema
    else
      if f.anonymous ∧ f.typ.deref1.kind = .structK then
        if f.typ.deref1 = parent then
          flattenFields (fuel + 1)
            (g.addWarning ("openapi/gen: skipped recursive embeding of type " ++
              g.typeName parent))
            t parent rest schema
        else
          match flattenStructSchema fuel g f.typ.deref1 parent schema with
          | none => none
          | some (g1, schema1) => flattenFields (fuel + 1) g1 t parent rest schema1
      else if fieldNameFromTag f ((mediaTags tonicMediaType).getD "") = "" then
        some (g, schema)
      else
        -- the source computes fname once and threads the required flag and
        -- the Required-extended schema; the pure computations are inlined
        match newSchemaFromStructField fuel g f
            (if fieldNameFromTag f ((mediaTags tonicMediaType).getD "") ≠ "" ∧
                g.isStructFieldRequired f then true else false)
            (fieldNameFromTag f ((mediaTags tonicMediaType).getD ""))
            (g.typeName t) with
        | none => none
        | some (g1, fsor) =>
          flattenFields (fuel + 1) g1 t parent rest
            (if fieldNameFromTag f ((mediaTags tonicMediaType).getD "") ≠ "" ∧
                g.isStructFieldRequired f then
               { schema with
                 required := schema.required ++
                   [fieldNameFromTag f ((mediaTags tonicMediaType).getD "")],
                 properties := listInsert schema.properties
                   (fieldNameFromTag f ((mediaTags tonicMediaType).getD "")) fsor }
             else
               { schema with
                 properties := listInsert schema.properties
                   (fieldNameFromTag f ((mediaTags tonicMediaType).getD "")) fsor })
termination_by fuel _ _ _ fields _ => (fuel, fields.length)

/-- Model of `newSchemaFromStructField`: build the schema for the field's
type, resolve it (it may live in the components registry), enrich it from
the struct tags and store the enriched schema back where it came from. -/
def newSchemaFromStructField : Nat → Gen → GoStructField → Bool → String → String →
    Option (Gen × Option SchemaOrRef)
  | 0, _, _, _, _, _ => none
  | fuel + 1, g, sf, required, fname, pname =>
    match newSchemaFromType fuel g (some sf.typ) with
    | none => none
    | some (g1, none) => some (g1, none)
    | some (g1, some sor) =>
      match g1.schemaFromComponents sor with
      | none => some (g1, none)
      | some schema =>
        let step := fieldSchemaUpdate g1.config schema sf required fname pname
        let step2 := (g1.addErrors step.1).storeResolved sor step.2
        some (step2.1, some step2.2)
termination_by fuel _ _ _ _ _ => (fuel, 0)

end

/-! ## Operation assembly (gen.go): parameters, responses, AddOperation -/

/-- Modelled from the external `gadgeto/tonic` dependency used by gen.go:
its `ParseTagKey` returns the part of the tag value before the first comma
(the error branch of the source is unreachable, `strings.Split` never
returns an empty slice). -/
def gadgetoParseTagKey (tag : String) : Except String String :=
  match tag.splitOn "," with
  | [] => .error "empty tag"
  | name :: _ => .ok name

/-- The three parameter-location tag keys, in the order the source
iterates them. -/
def parameterLocations (cfg : SpecGenConfig) : List String :=
  [cfg.pathLocationTag, cfg.queryLocationTag, cfg.headerLocationTag]

/-- Indices of the location tag keys present on the field — the loop of
`paramLocation` counts them in `c` and keeps the last index in `p`; the
whole hit list is kept here, its length is `c` and its last element is
`p`. -/
def locationTagHits (cfg : SpecGenConfig) (f : GoStructField) : List Nat :=
  ((parameterLocations cfg).zip (List.range (parameterLocations cfg).length)).filterMap
    (fun ni => if (tagLookup f.tags ni.1).isSome then some ni.2 else none)

/-- Model of `paramLocation`: no location tag present means the field
belongs to the request body (empty string), more than one is a hard
generation error, otherwise the single location found. -/
def paramLocation (g : Gen) (f : GoStructField) (inT : GoType) : Except String String :=
  if (locationTagHits g.config f).length = 0 then .ok ""
  else if (locationTagHits g.config f).length > 1 then
    .error ("field " ++ f.name ++ " of " ++ g.typeName inT ++
      " has conflicting parameter location")
  else
    .ok ((parameterLocations g.config).getD
      ((locationTagHits g.config f).getLast?.getD 0) "")

/-- Model of `newParameterFromField`: build an operation parameter from a
location-tagged struct field (the source receives the field's index in `t`;
the field itself is passed here).  Path parameters are always required.  The
deprecated flag transcribes the source literally and is therefore always
false (see `fieldSchemaUpdate`).  A query-located field of boolean kind gets
`AllowEmptyValue`. -/
def newParameterFromField (fuel : Nat) (g : Gen) (field : GoStructField) (t : GoType) :
    Option (Gen × Option Parameter × Option String) :=
  match paramLocation g field t with
  | .error e => some (g, none, some e)
  | .ok location =>
    if location = "" then some (g, none, none)
    else
      match gadgetoParseTagKey (tagGet field.tags location) with
      | .error e => some (g, none, some e)
      | .ok name =>
        -- the source binds `required` and `deprecated` to locals and sets
        -- AllowEmptyValue after constructing the parameter; the same pure
        -- computations appear inline here
        match newSchemaFromStructField fuel g field
            (if location = g.config.pathLocationTag then true
             else g.isStructFieldRequired field)
            name (g.typeName t) with
        | none => none
        | some (g1, sor) =>
          some (g1,
            some
              { name := name, In := location,
                description := tagGet field.tags "description",
                required :=
                  if location = g.config.pathLocationTag then true
                  else g.isStructFieldRequired field,
                deprecated :=
                  if (goParseBool (tagGet field.tags "deprecated")).isSome then false
                  else (goParseBool (tagGet field.tags "deprecated")).getD false,
                allowEmptyValue :=
                  if field.typ.kind = .boolK ∧ location = g.config.queryLocationTag then true
                  else false,
                schema := sor },
            none)

/-- The `anyMediaType` constant. -/
def anyMediaType : String := "*/*"

/-- Media type selected for the request body (`mt := tonic.MediaType()`,
defaulted to the any-type). -/
def bodyMediaType : String := if tonicMediaType = "" then anyMediaType else tonicMediaType

/-- The inline schema of the request-body media-type entry, or the fresh
empty object schema the source creates when the entry does not exist yet; a
reference-valued entry is unreachable (entries are only ever created
inline). -/
def bodySchemaOf (rb : RequestBody) : Schema :=
  match listGet rb.content bodyMediaType with
  | some m =>
    match m.schema with
    | some (.schema s) => s
    | _ => { type := "object" }
  | none => { type := "object" }

/-- The request body after the creation steps of the source: ensure the
body and its media-type entry exist. -/
def ensuredBody (op : Operation) : RequestBody :=
  if (listGet (op.requestBody.getD { content := [] }).content bodyMediaType).isSome then
    op.requestBody.getD { content := [] }
  else
    { content := listInsert (op.requestBody.getD { content := [] }).content bodyMediaType
        { schema := some (.schema (bodySchemaOf (op.requestBody.getD { content := [] }))) } }

/-- Write the body schema, mutated through the source's pointer, back into
the media-type entry. -/
def writeBodySchema (rb : RequestBody) (s : Schema) : RequestBody :=
  { content := listInsert rb.content bodyMediaType { schema := some (.schema s) } }

/-- Append to the required list of a schema (`schema.Required` append). -/
def Schema.addRequired (s : Schema) (n : String) : Schema :=
  { s with required := s.required ++ [n] }

/-- Store a property of a schema (`schema.Properties[fname] = ...`). -/
def Schema.putProperty (s : Schema) (n : String) (v : Option SchemaOrRef) : Schema :=
  { s with properties := listInsert s.properties n v }

/-- Model of `addStructFieldToOperation`: a field with a location tag
becomes an operation parameter (duplicates by name and location are
non-fatal errors, first occurrence wins); any other field becomes a
request-body property when the method allows a body and binding is not
disabled, with the body schema created or extended in place. -/
def addStructFieldToOperation (fuel : Nat) (g : Gen) (op : Operation) (t : GoType)
    (sf : GoStructField) (allowBody : Bool) : Option (Gen × Operation × Option String) :=
  match newParameterFromField fuel g sf t with
  | none => none
  | some (g1, _, some e) => some (g1, op, some e)
  | some (g1, some param, none) =>
    if op.parameters.any (fun p => p.name = param.name ∧ p.In = param.In) then
      some (g1.addError ("openapi/gen: duplicate parameter found in type " ++
        g1.typeName t ++ ": name=" ++ param.name ++ ", location=" ++ param.In), op, none)
    else some (g1, { op with parameters := op.parameters ++ [param] }, none)
  | some (g1, none, none) =>
    if ¬ allowBody then some (g1, op, none)
    else if tagGet sf.tags "binding" = "-" then some (g1, op, none)
    else if ((bodySchemaOf (op.requestBody.getD { content := [] })).properties.find?
        (fun p => p.1 = fieldNameFromTag sf ((mediaTags tonicMediaType).getD ""))).isSome then
      some
        (g1.addError ("openapi/gen: duplicate request body parameter " ++
            fieldNameFromTag sf ((mediaTags tonicMediaType).getD "") ++ " found in type " ++
            g1.typeName t),
         { op with requestBody := some (ensuredBody op) }, none)
    else
      match newSchemaFromStructField fuel g1 sf
          (if fieldNameFromTag sf ((mediaTags tonicMediaType).getD "") ≠ "" ∧
              g1.isStructFieldRequired sf then true else false)
          (fieldNameFromTag sf ((mediaTags tonicMediaType).getD ""))
          (g1.typeName t) with
      | none => none
      | some (g2, fsor) =>
        some (g2,
          { op with requestBody := some (writeBodySchema (ensuredBody op)
              (((if fieldNameFromTag sf ((mediaTags tonicMediaType).getD "") ≠ "" ∧
                    g1.isStructFieldRequired sf then
                   (bodySchemaOf (op.requestBody.getD { content := [] })).addRequired
                     (fieldNameFromTag sf ((mediaTags tonicMediaType).getD ""))
                 else
                   bodySchemaOf (op.requestBody.getD { content := [] }))).putProperty
                (fieldNameFromTag sf ((mediaTags tonicMediaType).getD "")) fsor)) },
          none)

/-- Modelled from the spec: the `locationsOrder` table of the sorting file
(absent from the sources at hand) gives locations the fixed precedence
path ≺ query ≺ header. -/
def locationsOrder : String → Nat
  | "path" => 1
  | "query" => 2
  | "header" => 3
  | _ => 0

/-- The combined less-function of `paramsOrderedBy(paramyByLocation,
paramyByName)`: by location order first, then by name, exactly the
multi-key comparison the sorter's `Less` performs. -/
def paramLess (p1 p2 : Parameter) : Bool :=
  if locationsOrder p1.In < locationsOrder p2.In then true
  else if locationsOrder p2.In < locationsOrder p1.In then false
  else decide (p1.name < p2.name)

/-- Insert into a sorted parameter list. -/
def insertSorted (le : Parameter → Parameter → Bool) (p : Parameter) :
    List Parameter → List Parameter
  | [] => [p]
  | q :: rest => if le p q then p :: q :: rest else q :: insertSorted le p rest

/-- Modelled from the spec: sort the parameters with the combined ordering.
The source delegates to `sort.Slice`, which is unstable; an insertion sort
realises the same ordering (ties keep their relative order here, which no
verified property depends on). -/
def sortParams (le : Parameter → Parameter → Bool) : List Parameter → List Parameter
  | [] => []
  | p :: rest => insertSorted le p (sortParams le rest)

mutual

/-- Model of `setOperationParams`: walk the fields of the input struct type,
then sort the collected parameters by location and name. -/
def setOperationParams : Nat → Gen → Operation → GoType → GoType → Bool →
    Option (Gen × Operation × Option String)
  | 0, _, _, _, _, _ => none
  | fuel + 1, g, op, t, parent, allowBody =>
    if t.kind ≠ .structK then some (g, op, none)
    else
      match setOperationParamsFields fuel g op t parent (fieldsOf g.env t) allowBody with
      | none => none
      | some (g1, op1, some e) => some (g1, op1, some e)
      | some (g1, op1, none) =>
        some (g1, { op1 with parameters := sortParams paramLess op1.parameters }, none)
termination_by fuel _ _ _ _ _ => (fuel, 0)

/-- The field loop of `setOperationParams`: unexported fields are skipped;
an embedded struct equal to the top-most parent is skipped with a recorded
generation error; other embedded structs are recursed into; remaining
fields go through `addStructFieldToOperation`.  Any returned error aborts
the walk. -/
def setOperationParamsFields : Nat → Gen → Operation → GoType → GoType →
    List GoStructField → Bool → Option (Gen × Operation × Option String)
  | 0, _, _, _, _, _, _ => none
  | _ + 1, g, op, _, _, [], _ => some (g, op, none)
  | fuel + 1, g, op, t, parent, sf :: rest, allowBody =>
    if sf.pkgPath ≠ "" then setOperationParamsFields (fuel + 1) g op t parent rest allowBody
    else
      if sf.anonymous ∧ sf.typ.deref1.kind = .structK then
        if sf.typ.deref1 = parent then
          setOperationParamsFields (fuel + 1)
            (g.addError ("skipped recursive embeding of type " ++ g.typeName parent ++
              " for parameter " ++ sf.name))
            op t parent rest allowBody
        else
          match setOperationParams fuel g op sf.typ.deref1 parent allowBody with
          | none => none
          | some (g1, op1, some e) => some (g1, op1, some e)
          | some (g1, op1, none) =>
            setOperationParamsFields (fuel + 1) g1 op1 t parent rest allowBody
      else
        match addStructFieldToOperation fuel g op t sf allowBody with
        | none => none
        | some (g1, op1, some e) => some (g1, op1, some e)
        | some (g1, op1, none) =>
          setOperationParamsFields (fuel + 1) g1 op1 t parent rest allowBody
termination_by fuel _ _ _ _ fields _ => (fuel, fields.length)

end

/-- Model of `http.StatusText` restricted to the status codes exercised in
this development; unknown codes yield the empty string exactly as unmapped
codes do in the net/http table. -/
def statusText : Int → String
  | 200 => "OK"
  | 201 => "Created"
  | 204 => "No Content"
  | 400 => "Bad Request"
  | 404 => "Not Found"
  | 500 => "Internal Server Error"
  | _ => ""

/-- Header loop of `setOperationResponse`: a header without a model gets a
plain string schema, otherwise the schema of its model's type. -/
def respHeadersLoop (fuel : Nat) : Gen → Response → List ResponseHeader →
    Option (Gen × Response)
  | g, r, [] => some (g, r)
  | g, r, h :: rest =>
    match h.model with
    | none =>
      let hdr : HeaderObj :=
        { description := h.description, schema := some (.schema { type := "string" }) }
      respHeadersLoop fuel g { r with headers := listInsert r.headers h.name hdr } rest
    | some m =>
      match newSchemaFromType fuel g (some m) with
      | none => none
      | some (g1, sor) =>
        let hdr : HeaderObj := { description := h.description, schema := sor }
        respHeadersLoop fuel g1 { r with headers := listInsert r.headers h.name hdr } rest

/-- Model of `setOperationResponse`: reject a duplicate status-code key,
default the description from the status text (an unparsable code is an
error), attach the schema of the return type under the media type when
there is one, then the declared headers. -/
def setOperationResponse (fuel : Nat) (g : Gen) (op : Operation) (t : Option GoType)
    (code mt desc : String) (headers : List ResponseHeader) :
    Option (Gen × Operation × Option String) :=
  if (op.responses.find? (fun p => p.1 = code)).isSome then
    some (g, op, some ("response with code " ++ code ++ " already exists"))
  else
    let desc2 : Except String String :=
      if desc = "" ∧ code ≠ "default" then
        match goAtoi code with
        | .error e => .error e
        | .ok ci => .ok (statusText ci)
      else .ok desc
    match desc2 with
    | .error e => some (g, op, some e)
    | .ok desc =>
      match newSchemaFromType fuel g t with
      | none => none
      | some (g1, schemaOpt) =>
        let r : Response := { description := desc }
        let r :=
          match schemaOpt with
          | some sor => { r with content := listInsert r.content mt { schema := some sor } }
          | none => r
        match respHeadersLoop fuel g1 r headers with
        | none => none
        | some (g2, r2) =>
          some (g2, { op with responses := listInsert op.responses code r2 }, none)

/-- Loop over `info.Responses` in `AddOperation` (nil entries of the source
slice cannot arise here). -/
def addInfoResponses (fuel : Nat) : Gen → Operation → String → List OperationReponse →
    Option (Gen × Operation × Option String)
  | g, op, _, [] => some (g, op, none)
  | g, op, mt, resp :: rest =>
    match setOperationResponse fuel g op resp.model resp.code mt resp.description
        resp.headers with
    | none => none
    | some (g1, op1, some e) => some (g1, op1, some e)
    | some (g1, op1, none) => addInfoResponses fuel g1 op1 mt rest

/-- Scanner of `rewritePath`: the regular expression `\/:([^\/]*)` replaced
by `/{$1}` — a colon segment after a slash becomes a brace-delimited
parameter.  The Boolean flag records whether the scan is inside such a
segment (an opening brace has been emitted and the closing one is pending);
the braces are spelled via their code points 123 and 125. -/
def rewritePathAux : List Char → Bool → List Char
  | [], false => []
  | [], true => [Char.ofNat 125]
  | '/' :: ':' :: rest, false => '/' :: Char.ofNat 123 :: rewritePathAux rest true
  | '/' :: ':' :: rest, true =>
    Char.ofNat 125 :: '/' :: Char.ofNat 123 :: rewritePathAux rest true
  | '/' :: rest, true => Char.ofNat 125 :: '/' :: rewritePathAux rest false
  | c :: rest, true => c :: rewritePathAux rest true
  | c :: rest, false => c :: rewritePathAux rest false

/-- Model of `rewritePath`. -/
def rewritePath (path : String) : String := String.mk (rewritePathAux path.data false)

/-- Model of `setOperationBymethod`: store the operation in the path item's
slot for the method.  The slot is overwritten unconditionally; an unknown
method leaves the item unchanged. -/
def setOperationBymethod (item : PathItem) (op : Operation) (method : String) : PathItem :=
  match method with
  | "GET" => { item with GET := some op }
  | "PUT" => { item with PUT := some op }
  | "POST" => { item with POST := some op }
  | "PATCH" => { item with PATCH := some op }
  | "HEAD" => { item with HEAD := some op }
  | "OPTIONS" => { item with OPTIONS := some op }
  | "TRACE" => { item with TRACE := some op }
  | "DELETE" => { item with DELETE := some op }
  | _ => item

/-- Method slot accessor for statements about the path map. -/
def PathItem.methodSlot (item : PathItem) (method : String) : Option Operation :=
  match method with
  | "GET" => item.GET
  | "PUT" => item.PUT
  | "POST" => item.POST
  | "PATCH" => item.PATCH
  | "HEAD" => item.HEAD
  | "OPTIONS" => item.OPTIONS
  | "TRACE" => item.TRACE
  | "DELETE" => item.DELETE
  | _ => none

/-- Model of `AddOperation`: rewrite the path, insert a fresh path item into
the path map if none exists, assemble the operation (parameters and body
from the input type, default response from the output type, additional
declared responses), and finally store it in the method slot.  A non-struct
input type or any error from the sub-steps aborts the call with an error —
after the path item was already inserted, but before the operation is
stored. -/
def AddOperation (fuel : Nat) (g : Gen) (path method tag id : String)
    (inT outT : Option GoType) (info : OperationInfo) : Option (Gen × Option String) :=
  match fuel with
  | 0 => none
  | fuel + 1 =>
    let path := rewritePath path
    let item := (listGet g.paths path).getD {}
    let g := { g with paths := listInsert g.paths path item }
    let op : Operation :=
      { id := id, summary := info.summary,
        description := info.description, deprecated := info.deprecated }
    let op := if tag ≠ "" then { op with tags := op.tags ++ [tag] } else op
    let allowBody := method ≠ "GET" ∧ method ≠ "HEAD" ∧ method ≠ "DELETE"
    let inStep : Option (Gen × Operation × Option String) :=
      match inT with
      | none => some (g, op, none)
      | some t0 =>
        let t := t0.deref1
        if t.kind ≠ .structK then some (g, op, some "input type is not a struct")
        else setOperationParams fuel g op t t allowBody
    match inStep with
    | none => none
    | some (g, _, some e) => some (g, some e)
    | some (g, op, none) =>
      let outStep : Option (Gen × Operation × Option String) :=
        match outT with
        | none => some (g, op, none)
        | some t0 =>
          let t := t0.deref1
          setOperationResponse fuel g op (some t) (toString info.statusCode)
            tonicMediaType info.statusDescription info.headers
      match outStep with
      | none => none
      | some (g, _, some e) => some (g, some e)
      | some (g, op, none) =>
        match addInfoResponses fuel g op tonicMediaType info.responses with
        | none => none
        | some (g, _, some e) => some (g, some e)
        | some (g, op, none) =>
          some ({ g with
                  paths := listInsert g.paths path (setOperationBymethod item op method) },
                none)

/-! ## The tonic request binder (tonic/handler.go)

A live value is a `BindVal`; struct values carry their field values
positionally, matching the field list of their type.  `bind` walks the
fields of the (pointer-to-)struct input, extracting raw values through the
abstracted extractor (the `extractor` function parameter of the source) and
converting them with `bindStringValue`.  A `BindFailure.panic` models a Go
runtime panic, distinct from a returned `BindError`. -/

/-- A live Go value on the binding side.  A nil pointer is `vPtr none`; a
nil slice is `vSlice []`. -/
inductive BindVal where
  | vStr (s : String)
  | vBool (b : Bool)
  | vInt (n : Int)
  | vUint (n : Nat)
  | vSlice (vs : List BindVal)
  | vArray (vs : List BindVal)
  | vStruct (fields : List BindVal)
  | vPtr (inner : Option BindVal)

/-- The zero value of a type (`reflect.New(t).Elem()`), with fuel for
struct cycles. -/
def zeroVal (env : TypeEnv) : Nat → GoType → BindVal
  | _, .stringT => .vStr ""
  | _, .boolT => .vBool false
  | _, .intT | _, .int8T | _, .int16T | _, .int32T | _, .int64T => .vInt 0
  | _, .uintT | _, .uint8T | _, .uint16T | _, .uint32T | _, .uint64T => .vUint 0
  | _, .ptrT _ => .vPtr none
  | _, .sliceT _ => .vSlice []
  | 0, _ => .vStruct []
  | fuel + 1, .arrayT n e => .vArray (List.replicate n (zeroVal env fuel e))
  | fuel + 1, .structT id =>
    .vStruct (((lookupStruct env id).map (·.fields)).getD [] |>.map
      (fun f => zeroVal env fuel f.typ))
  | _, .mapT _ _ => .vPtr none
  | _, .funcT => .vPtr none

/-- Outcome of a failed binding: a returned `BindError` (with the offending
field name, the input struct type name and a message) or a runtime panic. -/
inductive BindFailure where
  | bindError (field : String) (typeName : String) (message : String)
  | panic (message : String)
deriving DecidableEq, Repr

/-- Model of `bindStringValue` (binder utilities file): convert a raw string
to the value of type `t`.  The `encoding.TextUnmarshaler` and
`time.Duration` special cases concern types outside the modelled universe.
An invalid boolean is an error here (unlike the generator-side
`stringToType` of this vintage). -/
def bindStringValue (s : String) (t : GoType) : Except String BindVal :=
  match t.kind with
  | .stringK => .ok (.vStr s)
  | .intK | .int8K | .int16K | .int32K | .int64K => (goParseInt s t.bits).map .vInt
  | .uintK | .uint8K | .uint16K | .uint32K | .uint64K => (goParseUint s t.bits).map .vUint
  | .boolK =>
    match goParseBool s with
    | some b => .ok (.vBool b)
    | none => .error ("strconv.ParseBool: parsing " ++ s ++ ": invalid syntax")
  | k => .error ("unsupported parameter type: " ++ k.str)

/-- Element type (`reflect.Type.Elem`). -/
def GoType.elemT : GoType → GoType
  | .ptrT e => e
  | .sliceT e => e
  | .arrayT _ e => e
  | .mapT _ v => v
  | t => t

/-- Array length (`reflect.Type.Len`). -/
def GoType.arrayLen : GoType → Nat
  | .arrayT n _ => n
  | _ => 0

/-- Type name as `reflect.Type.Name()` renders it in `BindError.Error`. -/
def goBareTypeName (env : TypeEnv) (t : GoType) : String :=
  match t with
  | .structT id => ((lookupStruct env id).map (·.name)).getD ""
  | t => t.kind.str

/-- An extractor (`extractQuery`/`extractPath`/`extractHeader`): from a tag
value to the parameter name, the raw values and an optional error. -/
abbrev Extractor := String → String × List String × Option String

/-- Convert each raw value in order with `bindStringValue`; the first
failure wins (the element loop of the slice/array branch of `bind`). -/
def convertAll (t : GoType) : List String → Except String (List BindVal)
  | [] => .ok []
  | v :: rest =>
    match bindStringValue v t with
    | .error e => .error e
    | .ok bv =>
      match convertAll t rest with
      | .error e => .error e
      | .ok bvs => .ok (bv :: bvs)

/-- Result of processing one field in `bind`: continue the loop with the
updated field value, or stop the whole walk successfully (the slice/array
branch of the source ends in `return nil`, skipping all remaining
fields). -/
inductive StepRes where
  | cont (v : BindVal)
  | stop (v : BindVal)

mutual

/-- Model of `bind` (tonic/handler.go): dereference the pointer to the
input struct, then walk its fields.  The result is the updated value at the
level it was passed (the source mutates through the pointer).  Calling it
on a non-struct (after dereference) would make `t.NumField()` panic in the
source. -/
def bind : Nat → TypeEnv → Extractor → String → GoType → BindVal →
    Option (Except BindFailure BindVal)
  | 0, _, _, _, _, _ => none
  | fuel + 1, env, extract, tag, t, v =>
    let isPtr := t.kind = .ptrK
    let t1 := t.deref1
    let v1 : BindVal :=
      if isPtr then
        match v with
        | .vPtr (some i) => i
        | _ => zeroVal env (fuel + 1) t1
      else v
    if t1.kind ≠ .structK then some (.error (.panic "reflect: NumField of non-struct type"))
    else
      let fields := fieldsOf env t1
      let vals : List BindVal :=
        match v1 with
        | .vStruct vs => vs
        | _ => fields.map (fun f => zeroVal env (fuel + 1) f.typ)
      match bindFields fuel env extract tag (goBareTypeName env t1) fields vals with
      | none => none
      | some (.error e) => some (.error e)
      | some (.ok vs) =>
        let res := BindVal.vStruct vs
        some (.ok (if isPtr then .vPtr (some res) else res))

/-- The field loop of `bind`, positional over field list and value list. -/
def bindFields : Nat → TypeEnv → Extractor → String → String →
    List GoStructField → List BindVal → Option (Except BindFailure (List BindVal))
  | 0, _, _, _, _, _, _ => none
  | _ + 1, _, _, _, _, [], vs => some (.ok vs)
  | _ + 1, _, _, _, _, _ :: _, [] => some (.ok [])
  | fuel + 1, env, extract, tag, tname, f :: fs, v :: vs =>
    match bindField fuel env extract tag tname f v with
    | none => none
    | some (.error e) => some (.error e)
    | some (.ok (.stop v2)) => some (.ok (v2 :: vs))
    | some (.ok (.cont v2)) =>
      match bindFields fuel env extract tag tname fs vs with
      | none => none
      | some (.error e) => some (.error e)
      | some (.ok vs2) => some (.ok (v2 :: vs2))

/-- Processing of one struct field in `bind`: recurse into embedded fields
(materialising nil embedded pointers); extract raw values for a tagged
field, falling back to the default tag; more than one raw value for a
slice/array field is a `BindError` in this source (the comment above the
check in the source claims the opposite policy); a slice binding reaches
`reflect.MakeSlice(typ, len, 0)`, which panics for a positive length; an
array binding converts each value in order and then returns from the whole
walk; otherwise the first raw value is enum-checked and converted into the
field. -/
def bindField : Nat → TypeEnv → Extractor → String → String → GoStructField → BindVal →
    Option (Except BindFailure StepRes)
  | 0, _, _, _, _, _, _ => none
  | fuel + 1, env, extract, tag, tname, ft, fv =>
  if ft.anonymous then
    let fv2 : BindVal :=
      match ft.typ, fv with
      | .ptrT e, .vPtr none => .vPtr (some (zeroVal env fuel e))
      | _, _ => fv
    match bind fuel env extract tag ft.typ fv2 with
    | none => none
    | some (.error e) => some (.error e)
    | some (.ok v2) => some (.ok (.cont v2))
  else
    let tagValue := tagGet ft.tags tag
    if tagValue = "" then some (.ok (.cont fv))
    else
      let ex := extract tagValue
      let fieldName := ex.1
      match ex.2.2 with
      | some errMsg => some (.error (.bindError fieldName tname errMsg))
      | none =>
        let fieldValues := ex.2.1
        let fieldValues :=
          match tagLookup ft.tags "default" with
          | some d => if fieldValues.length = 0 then [d] else fieldValues
          | none => fieldValues
        if fieldValues.length = 0 then some (.ok (.cont fv))
        else
          let isPtr := ft.typ.kind = .ptrK
          let workT := ft.typ.deref1
          let kind := workT.kind
          if fieldValues.length > 1 ∧ (kind = .sliceK ∨ kind = .arrayK) then
            some (.error (.bindError fieldName tname "multiple values not supported"))
          else if kind = .arrayK ∧ workT.arrayLen ≠ fieldValues.length then
            some (.error (.bindError fieldName tname
              ("parameter expect " ++ toString workT.arrayLen ++ " values, got " ++
                toString fieldValues.length)))
          else if kind = .sliceK ∨ kind = .arrayK then
            if kind = .sliceK ∧ fieldValues.length > 0 then
              some (.error (.panic "reflect.MakeSlice: len > cap"))
            else
              match convertAll workT.elemT fieldValues with
              | .error e => some (.error (.bindError fieldName tname e))
              | .ok bvs =>
                let newV := if kind = .sliceK then BindVal.vSlice bvs else BindVal.vArray bvs
                some (.ok (.stop (if isPtr then .vPtr (some newV) else newV)))
          else
            let enum := tagGet ft.tags "enum"
            let enumErr : Option BindFailure :=
              if enum ≠ "" then
                let enumValues := enum.trim.splitOn ","
                if enumValues.length ≠ 0 ∧ ¬ enumValues.contains (fieldValues.headD "") then
                  some (.bindError fieldName tname
                    ("parameter has not an acceptable value, enum=" ++ toString enumValues))
                else none
              else none
            match enumErr with
            | some e => some (.error e)
            | none =>
              match bindStringValue (fieldValues.headD "") workT with
              | .error e => some (.error (.bindError fieldName tname e))
              | .ok newV => some (.ok (.cont (if isPtr then .vPtr (some newV) else newV)))

end


/-! ## State invariants of the schema builder

Every function of the schema-building family only appends to the error and
warning logs, inserts into the components registry and registers types in
`schemaTypes`; the reflection environment, the configuration and the path
map are never touched, and the set of seen types only grows. -/

/-- Frame/monotonicity invariant of one generation step. -/
def GenStep (g g' : Gen) : Prop :=
  g'.env = g.env ∧ g'.config = g.config ∧ g'.paths = g.paths ∧
  ∀ x, x ∈ g.schemaTypes → x ∈ g'.schemaTypes

theorem GenStep.refl (g : Gen) : GenStep g g := ⟨rfl, rfl, rfl, fun _ h => h⟩

theorem GenStep.trans {g1 g2 g3 : Gen} (h1 : GenStep g1 g2) (h2 : GenStep g2 g3) :
    GenStep g1 g3 :=
  ⟨h2.1.trans h1.1, h2.2.1.trans h1.2.1, h2.2.2.1.trans h1.2.2.1,
   fun x hx => h2.2.2.2 x (h1.2.2.2 x hx)⟩

theorem genStep_addError (g : Gen) (m : String) : GenStep g (g.addError m) :=
  ⟨rfl, rfl, rfl, fun _ h => h⟩

theorem genStep_addErrors (g : Gen) (m : List String) : GenStep g (g.addErrors m) :=
  ⟨rfl, rfl, rfl, fun _ h => h⟩

theorem genStep_addWarning (g : Gen) (m : String) : GenStep g (g.addWarning m) :=
  ⟨rfl, rfl, rfl, fun _ h => h⟩

theorem genStep_setSchemas (g : Gen) (s : List (String × SchemaOrRef)) :
    GenStep g { g with schemas := s } :=
  ⟨rfl, rfl, rfl, fun _ h => h⟩

theorem genStep_register (g : Gen) (t : GoType) :
    GenStep g { g with schemaTypes := t :: g.schemaTypes } :=
  ⟨rfl, rfl, rfl, fun _ h => List.mem_cons_of_mem _ h⟩

theorem genStep_storeResolved (g : Gen) (sor : SchemaOrRef) (s : Schema) :
    GenStep g (g.storeResolved sor s).1 := by
  unfold Gen.storeResolved
  split
  · exact GenStep.refl g
  · split
    · split
      · exact genStep_setSchemas g _
      · exact GenStep.refl g
    · exact GenStep.refl g

set_option maxHeartbeats 3000000 in
theorem genStep_all :
    (∀ fuel g t, ∀ g' r, newSchemaFromType fuel g t = some (g', r) → GenStep g g') ∧
    (∀ fuel g t, ∀ g' r, newSchemaFromStruct fuel g t = some (g', r) → GenStep g g') ∧
    (∀ fuel g t p s, ∀ g' s', flattenStructSchema fuel g t p s = some (g', s') → GenStep g g') ∧
    (∀ fuel g t p fs s, ∀ g' s', flattenFields fuel g t p fs s = some (g', s') → GenStep g g') ∧
    (∀ fuel g sf b fn pn, ∀ g' r, newSchemaFromStructField fuel g sf b fn pn = some (g', r) →
      GenStep g g') ∧
    (∀ fuel g t, ∀ g' r, buildSchemaRecursive fuel g t = some (g', r) → GenStep g g') := by
  apply Fizz.newSchemaFromType.mutual_induct <;> intros <;> rename_i hsome <;>
    simp only [newSchemaFromType, newSchemaFromStruct, flattenStructSchema, flattenFields,
      newSchemaFromStructField, buildSchemaRecursive] at hsome <;>
    (repeat' split at hsome) <;>
    solve
      | contradiction
      | (simp only [Option.some.injEq, Prod.mk.injEq, reduceCtorEq] at hsome
         try (obtain ⟨h1, h2⟩ := hsome; subst h1)
         solve_by_elim [GenStep.refl, GenStep.trans, genStep_addError, genStep_addErrors,
           genStep_addWarning, genStep_register, genStep_setSchemas, genStep_storeResolved])
      | solve_by_elim [GenStep.refl, GenStep.trans, genStep_addError, genStep_addErrors,
           genStep_addWarning, genStep_register, genStep_setSchemas, genStep_storeResolved]
      | (try (simp only [Option.some.injEq, Prod.mk.injEq] at hsome)
         try (obtain ⟨h1, h2⟩ := hsome)
         try (subst h1)
         try (subst hsome)
         simp_all [GenStep, List.mem_cons])



theorem genStep_newSchemaFromStructField (fuel : Nat) (g : Gen) (sf : GoStructField)
    (b : Bool) (fn pn : String) (g' : Gen) (r : Option SchemaOrRef)
    (h : newSchemaFromStructField fuel g sf b fn pn = some (g', r)) : GenStep g g' :=
  genStep_all.2.2.2.2.1 fuel g sf b fn pn g' r h

theorem genStep_newParameterFromField (fuel : Nat) (g : Gen) (f : GoStructField)
    (t : GoType) (g' : Gen) (p : Option Parameter) (e : Option String)
    (h : newParameterFromField fuel g f t = some (g', p, e)) : GenStep g g' := by
  unfold newParameterFromField at h
  repeat' split at h
  all_goals
    solve
      | simp at h
      | (simp only [Option.some.injEq, Prod.mk.injEq] at h
         obtain ⟨h1, h2⟩ := h
         subst h1
         solve_by_elim [GenStep.refl, genStep_newSchemaFromStructField])

set_option maxHeartbeats 2000000 in
theorem genStep_addStructFieldToOperation (fuel : Nat) (g : Gen) (op : Operation)
    (t : GoType) (sf : GoStructField) (ab : Bool) (g' : Gen) (op' : Operation)
    (e : Option String)
    (h : addStructFieldToOperation fuel g op t sf ab = some (g', op', e)) : GenStep g g' := by
  unfold addStructFieldToOperation at h
  repeat' split at h
  all_goals
    solve
      | simp at h
      | (simp only [Option.some.injEq, Prod.mk.injEq] at h
         obtain ⟨h1, h2⟩ := h
         subst h1
         solve_by_elim [GenStep.refl, GenStep.trans, genStep_addError,
           genStep_newSchemaFromStructField, genStep_newParameterFromField])

set_option maxHeartbeats 2000000 in
theorem genStep_setOperationParams_all :
    (∀ fuel g op t parent ab, ∀ g' op' e,
      setOperationParams fuel g op t parent ab = some (g', op', e) → GenStep g g') ∧
    (∀ fuel g op t parent fs ab, ∀ g' op' e,
      setOperationParamsFields fuel g op t parent fs ab = some (g', op', e) → GenStep g g') := by
  apply Fizz.setOperationParams.mutual_induct <;> intros <;> rename_i hsome <;>
    simp only [setOperationParams, setOperationParamsFields] at hsome <;>
    (repeat' split at hsome) <;>
    solve
      | contradiction
      | (simp only [Option.some.injEq, Prod.mk.injEq, reduceCtorEq] at hsome
         try (obtain ⟨h1, h2⟩ := hsome)
         try (subst h1)
         try (subst hsome)
         solve_by_elim [GenStep.refl, GenStep.trans, genStep_addError,
           genStep_addStructFieldToOperation])
      | solve_by_elim [GenStep.refl, GenStep.trans, genStep_addError,
           genStep_addStructFieldToOperation]
      | (try (simp only [Option.some.injEq, Prod.mk.injEq] at hsome)
         try (obtain ⟨h1, h2⟩ := hsome)
         try (subst h1)
         try (subst hsome)
         simp_all [GenStep, List.mem_cons])
      | (rename_i g1b op1b xdup ih1 gp opp ep hpkg xopt g1 op1 heq
         rw [heq] at xdup
         simp only [Option.some.injEq, Prod.mk.injEq] at xdup
         obtain ⟨rfl, rfl, -⟩ := xdup
         exact GenStep.trans (genStep_addStructFieldToOperation _ _ _ _ _ _ _ _ _ heq)
           (ih1 _ _ _ hsome))

/-! ## The claims -/

/-- Generator state for the double-registration scenario: an empty
environment suffices since no input or output types are involved. -/
def c1Gen : Gen := { env := [] }

/-- Route options for the double-registration scenario. -/
def c1Info : OperationInfo := { statusCode := 200 }

/-- The generator state after the first registration of `GET /a`: the path
map holds the operation of the first call. -/
def c1AfterFirst : Gen :=
  { env := [], paths := [("/a", { GET := some { id := "op1" } })] }

/-- The generator state after the second registration of `GET /a`: the
method slot holds the second operation. -/
def c1AfterSecond : Gen :=
  { env := [], paths := [("/a", { GET := some { id := "op2" } })] }

/-- C1: registering the same path and method twice is claimed to return an
error on the second call and to keep the first operation.  In the code
`AddOperation` never inspects the occupied method slot and
`setOperationBymethod` overwrites it unconditionally: the second call
returns no error and the path map afterwards holds the second operation. -/
theorem C1_second_addOperation_overwrites :
    AddOperation 4 c1Gen "/a" "GET" "" "op1" none none c1Info = some (c1AfterFirst, none) ∧
    AddOperation 4 c1AfterFirst "/a" "GET" "" "op2" none none c1Info =
      some (c1AfterSecond, none) ∧
    listGet c1AfterSecond.paths "/a" = some { GET := some { id := "op2" } } :=
  ⟨rfl, rfl, rfl⟩

/-- The slice-typed field carrying an enum tag of the C4 scenario. -/
def c4Field : GoStructField :=
  { name := "K", typ := .sliceT .stringT, tags := [("enum", "aaa,bbb,ccc")],
    pkgPath := "", anonymous := false }

/-- The item sub-schema generated for the element type of `c4Field`. -/
def c4ItemSchema : Schema := { type := "string" }

/-- The array schema generated for `c4Field`. -/
def c4ResultSchema : Schema :=
  { type := "array", items := some (.schema c4ItemSchema) }

/-- The generator state after processing `c4Field`: one conversion error per
enum value. -/
def c4ResultGen : Gen :=
  { env := [],
    errors :=
      ["openapi/gen: enum value aaa of field K in type T cannot be converted to field's type: unknown type",
       "openapi/gen: enum value bbb of field K in type T cannot be converted to field's type: unknown type",
       "openapi/gen: enum value ccc of field K in type T cannot be converted to field's type: unknown type"] }

/-- C4: a slice-typed field with a comma-separated enum tag is claimed to
place the converted values in the items sub-schema.  The code has no slice
handling in its enum path: each value goes through `stringToType` at the
slice type itself, which fails with `unknown type`, so three conversion
errors are recorded and both the parent array schema and its items
sub-schema keep an empty enum list. -/
theorem C4_slice_enum_values_lost :
    newSchemaFromStructField 6 { env := [] } c4Field false "K" "T" =
      some (c4ResultGen, some (.schema c4ResultSchema)) ∧
    c4ResultSchema.enum = [] ∧ c4ItemSchema.enum = [] := by
  refine ⟨?_, rfl, rfl⟩
  with_unfolding_all rfl

/-- Environment of the C6 scenario: a struct whose first field is renamed to
the hide sentinel and whose second field is a plain string. -/
def c6Env : TypeEnv :=
  [("T", { pkg := "p", name := "T",
           fields :=
             [{ name := "A", typ := .stringT, tags := [("json", "-")],
                pkgPath := "", anonymous := false },
              { name := "B", typ := .stringT, tags := [], pkgPath := "",
                anonymous := false }] })]

/-- The generator state after generating the schema of the C6 struct: the
registered object schema has no properties at all. -/
def c6ResultGen : Gen :=
  { env := c6Env, schemaTypes := [.structT "T"],
    schemas := [("PT", .schema { type := "object" })] }

/-- C6: a field renamed to the hide sentinel is claimed to be omitted while
every other field still becomes a property.  In the code the empty
serialization name makes the field loop return the schema built so far
(`return schema`, where the comment above announces a skip), so the later
field `B` never becomes a property: the registered object schema is empty. -/
theorem C6_hide_sentinel_aborts_remaining_fields :
    newSchemaFromStruct 10 { env := c6Env } (.structT "T") =
      some (c6ResultGen, some (.ref "#/components/schemas/PT")) ∧
    listGet c6ResultGen.schemas "PT" = some (.schema { type := "object" }) ∧
    ({ type := "object" } : Schema).properties = [] := by
  refine ⟨?_, rfl, rfl⟩
  with_unfolding_all rfl

/-- Environment of the C7 scenario: one input struct with a plain string
query field, one with a string-slice query field. -/
def c7Env : TypeEnv :=
  [("In1", { pkg := "main", name := "In1",
             fields := [{ name := "A", typ := .stringT, tags := [("query", "a")],
                          pkgPath := "", anonymous := false }] }),
   ("In2", { pkg := "main", name := "In2",
             fields := [{ name := "A", typ := .sliceT .stringT,
                          tags := [("query", "a")], pkgPath := "",
                          anonymous := false }] })]

/-- An extractor producing two raw values for every parameter. -/
def c7Extract2 : Extractor := fun tv => (tv, ["v1", "v2"], none)

/-- An extractor producing one raw value for every parameter. -/
def c7Extract1 : Extractor := fun tv => (tv, ["v1"], none)

/-- C7: a multi-valued extraction bound to a non-collection field is claimed
to fail, and a collection field is claimed to receive every value in order.
The condition at handler.go line 166 is inverted with respect to its own
comment: a non-collection field silently binds the first raw value, a
slice/array field with several raw values gets the `multiple values not
supported` bind error, and even a single-valued slice binding reaches
`reflect.MakeSlice(sliceType, len(fieldValues), 0)`, which panics because
the requested length exceeds the zero capacity. -/
theorem C7_multi_value_check_inverted :
    bind 5 c7Env c7Extract2 "query" (.structT "In1") (.vStruct [.vStr ""]) =
      some (.ok (.vStruct [.vStr "v1"])) ∧
    bind 5 c7Env c7Extract2 "query" (.structT "In2") (.vStruct [.vSlice []]) =
      some (.error (.bindError "a" "In2" "multiple values not supported")) ∧
    bind 5 c7Env c7Extract1 "query" (.structT "In2") (.vStruct [.vSlice []]) =
      some (.error (.panic "reflect.MakeSlice: len > cap")) :=
  ⟨rfl, rfl, rfl⟩

/-- Every successful `goParseUint` respects the requested bit width. -/
theorem goParseUint_lt_of_ok (s : String) (bits n : Nat)
    (h : goParseUint s bits = .ok n) : n < 2 ^ bits := by
  unfold goParseUint at h
  cases hd : decDigits? s.data with
  | none => rw [hd] at h; exact absurd h (by simp)
  | some m =>
    rw [hd] at h
    have h2 : (if m < 2 ^ bits then Except.ok m
        else Except.error ("value out of range: " ++ s)) = Except.ok n := h
    by_cases hm : m < 2 ^ bits
    · rw [if_pos hm] at h2
      cases h2
      exact hm
    · rw [if_neg hm] at h2
      exact absurd h2 (by simp)

/-- C8: string-to-value conversion respects the 8-bit unsigned width: the
text 5 converts to the integer 5, the text 300 is rejected as out of range,
and in general every successful unsigned conversion for the 8-bit target
yields a value below 2^8. -/
theorem C8_uint8_width_respected :
    stringToType "5" .uint8T = .ok (.vUint 5) ∧
    stringToType "300" .uint8T = .error "value out of range: 300" ∧
    ∀ val n, stringToType val .uint8T = .ok (.vUint n) → n < 2 ^ 8 := by
  refine ⟨rfl, rfl, fun val n h => ?_⟩
  simp only [stringToType, GoType.kind, GoType.bits] at h
  cases hu : goParseUint val 8 with
  | error e => rw [hu] at h; simp [Except.map] at h
  | ok m =>
    rw [hu] at h
    simp only [Except.map, Except.ok.injEq, GoValue.vUint.injEq] at h
    subst h
    exact goParseUint_lt_of_ok _ _ _ hu

/-- Witness for C8: the general width bound applied to the concrete
conversion of the text 5. -/
theorem C8_uint8_width_respected_witness :
    stringToType "5" .uint8T = .ok (.vUint 5) ∧ (5 : Nat) < 2 ^ 8 :=
  ⟨C8_uint8_width_respected.1, C8_uint8_width_respected.2.2 "5" 5 C8_uint8_width_respected.1⟩

/-- The size setters never touch the deprecated flag. -/
theorem setSchemaLen_deprecated (s : Schema) (n : Int) (t : GoType) :
    (setSchemaLen s n t).deprecated = s.deprecated := by
  unfold setSchemaLen; (repeat' split) <;> rfl

/-- The maximum setter never touches the deprecated flag. -/
theorem setSchemaMax_deprecated (s : Schema) (n : Int) (t : GoType) :
    (setSchemaMax s n t).deprecated = s.deprecated := by
  unfold setSchemaMax; (repeat' split) <;> rfl

/-- The minimum setter never touches the deprecated flag. -/
theorem setSchemaMin_deprecated (s : Schema) (n : Int) (t : GoType) :
    (setSchemaMin s n t).deprecated = s.deprecated := by
  unfold setSchemaMin; (repeat' split) <;> rfl

/-- The equality setter never touches the deprecated flag. -/
theorem setSchemaEq_deprecated (s : Schema) (n : Int) (t : GoType) :
    (setSchemaEq s n t).deprecated = s.deprecated := by
  unfold setSchemaEq; (repeat' split) <;> rfl

/-- A validator key-value pair never touches the deprecated flag. -/
theorem applyValidatorKV_deprecated (s : Schema) (ft : GoType) (p : String) :
    (applyValidatorKV s ft p).deprecated = s.deprecated := by
  simp only [applyValidatorKV]
  split
  · split <;> (try rfl) <;>
      (repeat' split) <;>
      simp [setSchemaLen_deprecated, setSchemaMax_deprecated, setSchemaMin_deprecated,
        setSchemaEq_deprecated]
  · rfl

/-- The alternative fold of the validator loop never touches the deprecated
flag. -/
theorem foldValidator_deprecated (ft : GoType) (l : List String) (s : Schema) :
    (l.foldl (fun s p => applyValidatorKV s ft p) s).deprecated = s.deprecated := by
  induction l generalizing s with
  | nil => rfl
  | cons p rest ih => rw [List.foldl_cons, ih, applyValidatorKV_deprecated]

/-- The validator tag loop never touches the deprecated flag. -/
theorem validatorTagLoop_deprecated (ft : GoType) (l : List String) (s : Schema) :
    (validatorTagLoop s ft l).deprecated = s.deprecated := by
  induction l generalizing s with
  | nil => rfl
  | cons t rest ih =>
    unfold validatorTagLoop
    split
    · rfl
    · rw [ih, foldValidator_deprecated]

/-- Validation-tag processing never touches the deprecated flag. -/
theorem updateSchemaValidation_deprecated (cfg : SpecGenConfig) (s : Schema)
    (sf : GoStructField) : (updateSchemaValidation cfg s sf).deprecated = s.deprecated := by
  by_cases h : tagGet sf.tags cfg.validatorTag = ""
  · simp [updateSchemaValidation, h]
  · simp [updateSchemaValidation, h, validatorTagLoop_deprecated]

/-- The schema produced by the tag-enrichment chain always carries a false
deprecated flag, whatever the tag text says. -/
theorem fieldSchemaUpdate_deprecated (cfg : SpecGenConfig) (schema : Schema)
    (sf : GoStructField) (required : Bool) (fname pname : String) :
    ((fieldSchemaUpdate cfg schema sf required fname pname).2).deprecated = false := by
  unfold fieldSchemaUpdate
  repeat' split
  all_goals simp only [updateSchemaValidation_deprecated]
  all_goals cases goParseBool (tagGet sf.tags "deprecated") <;> rfl

/-- A parameter produced by `newParameterFromField` always carries a false
deprecated flag, whatever the tag text says. -/
theorem newParameterFromField_deprecated (fuel : Nat) (g : Gen) (field : GoStructField)
    (t : GoType) (g' : Gen) (p : Parameter) (e : Option String)
    (h : newParameterFromField fuel g field t = some (g', some p, e)) :
    p.deprecated = false := by
  unfold newParameterFromField at h
  repeat' split at h
  all_goals
    simp only [Option.some.injEq, Prod.mk.injEq, reduceCtorEq, false_and, and_false] at h
  all_goals obtain ⟨-, h2, -⟩ := h
  all_goals subst h2
  all_goals simp_all [Option.not_isSome_iff_eq_none]

/-- C9: a deprecated tag parsing to a true boolean literal is claimed to
mark the field schema (and the derived parameter) deprecated.  The source
parses the tag and then runs `if err == nil { deprecated = false }`,
overwriting every successful parse with false, while a failed parse already
leaves false: the flag can never become true, neither on the field schema
produced by the tag-enrichment chain nor on a generated parameter. -/
theorem C9_deprecated_never_true :
    (∀ cfg schema sf required fname pname,
      ((fieldSchemaUpdate cfg schema sf required fname pname).2).deprecated = false) ∧
    (∀ fuel g field t g' p e,
      newParameterFromField fuel g field t = some (g', some p, e) →
      p.deprecated = false) :=
  ⟨fieldSchemaUpdate_deprecated,
   fun fuel g field t g' p e h => newParameterFromField_deprecated fuel g field t g' p e h⟩

/-- The deprecated-tagged query field of the C9 witness. -/
def c9Field : GoStructField :=
  { name := "D", typ := .stringT, tags := [("query", "d"), ("deprecated", "true")],
    pkgPath := "", anonymous := false }

/-- Environment holding the struct of the C9 witness. -/
def c9Env : TypeEnv := [("T9", { pkg := "pkg", name := "T9", fields := [c9Field] })]

/-- The parameter generated from `c9Field`. -/
def c9Param : Parameter :=
  { name := "d", In := "query", schema := some (.schema { type := "string" }) }

/-- Witness for C9: the tag text true parses to a true boolean literal, yet
both the enriched field schema and the generated parameter carry a false
deprecated flag. -/
theorem C9_deprecated_never_true_witness :
    goParseBool "true" = some true ∧
    ((fieldSchemaUpdate tonicConfig {} c9Field false "D" "PkgT9").2).deprecated = false ∧
    newParameterFromField 3 { env := c9Env } c9Field (.structT "T9") =
      some ({ env := c9Env }, some c9Param, none) ∧
    c9Param.deprecated = false := by
  have h : newParameterFromField 3 { env := c9Env } c9Field (.structT "T9") =
      some ({ env := c9Env }, some c9Param, none) := by with_unfolding_all rfl
  exact ⟨rfl, C9_deprecated_never_true.1 tonicConfig {} c9Field false "D" "PkgT9", h,
    C9_deprecated_never_true.2 3 { env := c9Env } c9Field (.structT "T9")
      { env := c9Env } c9Param none h⟩

/-- C10: a generated parameter allows the empty value exactly when its field
has boolean kind and its location is the configured query location, which is
how `newParameterFromField` fills `AllowEmptyValue` after building the
parameter. -/
theorem C10_allowEmptyValue_iff_bool_query :
    ∀ fuel g field t g' p e,
      newParameterFromField fuel g field t = some (g', some p, e) →
      (p.allowEmptyValue = true ↔
        (field.typ.kind = .boolK ∧ p.In = g.config.queryLocationTag)) := by
  intro fuel g field t g' p e h
  unfold newParameterFromField at h
  repeat' split at h
  all_goals
    simp only [Option.some.injEq, Prod.mk.injEq, reduceCtorEq, false_and, and_false] at h
  all_goals obtain ⟨-, h2, -⟩ := h
  all_goals subst h2
  all_goals simp_all

/-- The boolean query field of the C10 witness. -/
def c10Field : GoStructField :=
  { name := "B", typ := .boolT, tags := [("query", "b")], pkgPath := "",
    anonymous := false }

/-- Environment holding the struct of the C10 witness. -/
def c10Env : TypeEnv := [("T10", { pkg := "pkg", name := "T10", fields := [c10Field] })]

/-- The parameter generated from `c10Field`: it allows the empty value. -/
def c10Param : Parameter :=
  { name := "b", In := "query", allowEmptyValue := true,
    schema := some (.schema { type := "boolean" }) }

/-- Witness for C10: a boolean query field produces a parameter with
AllowEmptyValue set, satisfying the characterisation. -/
theorem C10_allowEmptyValue_iff_bool_query_witness :
    newParameterFromField 3 { env := c10Env } c10Field (.structT "T10") =
      some ({ env := c10Env }, some c10Param, none) ∧
    (c10Param.allowEmptyValue = true ↔
      (c10Field.typ.kind = .boolK ∧
        c10Param.In = ({ env := c10Env } : Gen).config.queryLocationTag)) ∧
    c10Param.allowEmptyValue = true := by
  have h : newParameterFromField 3 { env := c10Env } c10Field (.structT "T10") =
      some ({ env := c10Env }, some c10Param, none) := by with_unfolding_all rfl
  exact ⟨h, C10_allowEmptyValue_iff_bool_query 3 { env := c10Env } c10Field
    (.structT "T10") { env := c10Env } c10Param none h, rfl⟩

/-- Inserting under a key makes lookup under that key yield the value. -/
theorem listGet_listInsert {α : Type} (l : List (String × α)) (k : String) (v : α) :
    listGet (listInsert l k v) k = some v := by
  unfold listGet listInsert
  split
  · rename_i hfind
    obtain ⟨x, hx⟩ := Option.isSome_iff_exists.mp hfind
    have hx1 : x.1 = k := by simpa using List.find?_some hx
    have hpe : ((fun p => decide (p.1 = k)) ∘ fun p : String × α =>
        if p.1 = k then (k, v) else p) = (fun p : String × α => decide (p.1 = k)) := by
      funext q
      by_cases hq : q.1 = k <;> simp [hq]
    rw [List.find?_map, hpe, hx]
    simp [hx1]
  · rename_i hfind
    have hnone : List.find? (fun p => decide (p.1 = k)) l = none := by
      cases hcase : List.find? (fun p => decide (p.1 = k)) l with
      | none => rfl
      | some x => rw [hcase] at hfind; simp at hfind
    rw [List.find?_append, hnone]
    simp [List.find?]

/-- C2: a named struct type already seen yields a reference to its computed
name and an unchanged generator state, so no second registry entry can
arise; a type not yet seen descends into its fields only after the type has
been added to `schemaTypes` (registration before descent), stores the
flattened schema in the registry under the computed name exactly once, and
returns the reference to that name; consequently every successful first
encounter ends with the type registered and the name present in the
registry, and every later encounter is the first, unchanged-state case. -/
theorem C2_registration_happens_once (fuel : Nat) (g : Gen) (t : GoType)
    (hk : t.kind = .structK) (hname : g.typeName t ≠ "") :
    (t ∈ g.schemaTypes →
      newSchemaFromStruct (fuel + 1) g t =
        some (g, some (.ref ("#/components/schemas/" ++ g.typeName t)))) ∧
    (t ∉ g.schemaTypes →
      newSchemaFromStruct (fuel + 1) g t =
        match flattenStructSchema fuel { g with schemaTypes := t :: g.schemaTypes }
            t t { type := "object" } with
        | none => none
        | some (g2, schema) =>
          some ({ g2 with
                  schemas := listInsert g2.schemas (g.typeName t) (.schema schema) },
                some (.ref ("#/components/schemas/" ++ g.typeName t)))) ∧
    (t ∉ g.schemaTypes →
      ∀ g' r, newSchemaFromStruct (fuel + 1) g t = some (g', r) →
        r = some (.ref ("#/components/schemas/" ++ g.typeName t)) ∧
        t ∈ g'.schemaTypes ∧
        (listGet g'.schemas (g.typeName t)).isSome = true) := by
  have ha : t ∈ g.schemaTypes →
      newSchemaFromStruct (fuel + 1) g t =
        some (g, some (.ref ("#/components/schemas/" ++ g.typeName t))) := by
    intro hmem
    unfold newSchemaFromStruct
    rw [if_neg (by simp [hk]), if_pos hmem]
  have hb : t ∉ g.schemaTypes →
      newSchemaFromStruct (fuel + 1) g t =
        match flattenStructSchema fuel { g with schemaTypes := t :: g.schemaTypes }
            t t { type := "object" } with
        | none => none
        | some (g2, schema) =>
          some ({ g2 with
                  schemas := listInsert g2.schemas (g.typeName t) (.schema schema) },
                some (.ref ("#/components/schemas/" ++ g.typeName t))) := by
    intro hmem
    unfold newSchemaFromStruct
    rw [if_neg (by simp [hk]), if_neg hmem, if_pos hname]
    cases flattenStructSchema fuel { g with schemaTypes := t :: g.schemaTypes }
        t t { type := "object" } with
    | none => rfl
    | some gs =>
      obtain ⟨g2, schema⟩ := gs
      simp [hname]
  refine ⟨ha, hb, ?_⟩
  intro hmem g' r heq
  rw [hb hmem] at heq
  cases hf : flattenStructSchema fuel { g with schemaTypes := t :: g.schemaTypes }
      t t { type := "object" } with
  | none => rw [hf] at heq; exact absurd heq (by simp)
  | some gs =>
    obtain ⟨g2, schema⟩ := gs
    rw [hf] at heq
    simp only [Option.some.injEq, Prod.mk.injEq] at heq
    obtain ⟨rfl, rfl⟩ := heq
    refine ⟨rfl, ?_, ?_⟩
    · have hstep := genStep_all.2.2.1 fuel
        { g with schemaTypes := t :: g.schemaTypes } t t { type := "object" } g2 schema hf
      exact hstep.2.2.2 t (List.mem_cons_self t g.schemaTypes)
    · rw [listGet_listInsert]
      rfl

/-- Environment of the C2 witness: one plain named struct. -/
def c2Env : TypeEnv :=
  [("U", { pkg := "pkg", name := "U",
           fields := [{ name := "X", typ := .stringT, tags := [], pkgPath := "",
                        anonymous := false }] })]

/-- A generator state in which the witness type has already been seen. -/
def c2SeenGen : Gen := { env := c2Env, schemaTypes := [.structT "U"] }

/-- Witness for C2: an already-seen named struct yields a reference and the
state unchanged. -/
theorem C2_registration_happens_once_witness :
    newSchemaFromStruct 6 c2SeenGen (.structT "U") =
      some (c2SeenGen,
        some (.ref ("#/components/schemas/" ++ c2SeenGen.typeName (.structT "U")))) :=
  (C2_registration_happens_once 5 c2SeenGen (.structT "U") rfl (by decide)).1 (by decide)

/-- The anonymous self-embedded field of the C3 scenario. -/
def c3EmbField : GoStructField :=
  { name := "W", typ := .structT "W", tags := [], pkgPath := "", anonymous := true }

/-- The plain query field following the self-embedded field. -/
def c3AField : GoStructField :=
  { name := "A", typ := .stringT, tags := [("query", "a")], pkgPath := "",
    anonymous := false }

/-- Environment of the C3 scenario: a struct embedding itself. -/
def c3Env : TypeEnv :=
  [("W", { pkg := "pkg", name := "W", fields := [c3EmbField, c3AField] })]

/-- The schema generated for the self-embedding struct: the embedded field
is gone, the remaining field is present. -/
def c3WSchema : Schema :=
  { type := "object", properties := [("A", some (.schema { type := "string" }))] }

/-- The generator state after generating the schema of the self-embedding
struct: a warning is logged and the schema is registered. -/
def c3SchemaGen : Gen :=
  { env := c3Env, schemaTypes := [.structT "W"],
    schemas := [("PkgW", .schema c3WSchema)],
    warnings := ["openapi/gen: skipped recursive embeding of type PkgW"] }

/-- The parameter extracted from the remaining field of the self-embedding
struct. -/
def c3Param : Parameter :=
  { name := "a", In := "query", schema := some (.schema { type := "string" }) }

/-- The generator state after parameter extraction over the self-embedding
struct: a generation error is recorded for the skipped field. -/
def c3ParamGen : Gen :=
  { env := c3Env,
    errors := ["skipped recursive embeding of type PkgW for parameter W"] }

/-- C3: on a struct embedding its own type, both field walks terminate by
skipping the self-referential embedded field — the schema walk records a
warning and the parameter walk a non-fatal error — and both continue with
the remaining fields at unchanged fuel; concretely, the self-embedding
struct produces a registered schema holding the remaining property, and
parameter extraction produces the remaining parameter. -/
theorem C3_self_embedding_skipped_and_terminates :
    (∀ fuel g t parent f rest schema,
      f.pkgPath = "" → f.anonymous = true → f.typ.deref1.kind = .structK →
      f.typ.deref1 = parent →
      flattenFields (fuel + 1) g t parent (f :: rest) schema =
        flattenFields (fuel + 1)
          (g.addWarning ("openapi/gen: skipped recursive embeding of type " ++
            g.typeName parent)) t parent rest schema) ∧
    (∀ fuel g op t parent f rest allowBody,
      f.pkgPath = "" → f.anonymous = true → f.typ.deref1.kind = .structK →
      f.typ.deref1 = parent →
      setOperationParamsFields (fuel + 1) g op t parent (f :: rest) allowBody =
        setOperationParamsFields (fuel + 1)
          (g.addError ("skipped recursive embeding of type " ++ g.typeName parent ++
            " for parameter " ++ f.name)) op t parent rest allowBody) ∧
    newSchemaFromStruct 6 { env := c3Env } (.structT "W") =
      some (c3SchemaGen, some (.ref "#/components/schemas/PkgW")) ∧
    setOperationParams 6 { env := c3Env } {} (.structT "W") (.structT "W") true =
      some (c3ParamGen, { parameters := [c3Param] }, none) := by
  refine ⟨?_, ?_, ?_, ?_⟩
  · intro fuel g t parent f rest schema h1 h2 h3 h4
    simp only [flattenFields]
    rw [if_neg (by simp [h1]), if_pos (⟨h2, h3⟩ : _ ∧ _), if_pos h4]
  · intro fuel g op t parent f rest allowBody h1 h2 h3 h4
    simp only [setOperationParamsFields]
    rw [if_neg (by simp [h1]), if_pos (⟨h2, h3⟩ : _ ∧ _), if_pos h4]
  · with_unfolding_all rfl
  · with_unfolding_all rfl

/-- Witness for C3: the skip equations instantiated on the concrete
self-embedding struct. -/
theorem C3_self_embedding_skipped_and_terminates_witness :
    flattenFields 3 { env := c3Env } (.structT "W") (.structT "W")
        [c3EmbField, c3AField] { type := "object" } =
      flattenFields 3
        (({ env := c3Env } : Gen).addWarning
          ("openapi/gen: skipped recursive embeding of type " ++
            ({ env := c3Env } : Gen).typeName (.structT "W")))
        (.structT "W") (.structT "W") [c3AField] { type := "object" } ∧
    setOperationParamsFields 3 { env := c3Env } {} (.structT "W") (.structT "W")
        [c3EmbField, c3AField] true =
      setOperationParamsFields 3
        (({ env := c3Env } : Gen).addError
          ("skipped recursive embeding of type " ++
            ({ env := c3Env } : Gen).typeName (.structT "W") ++ " for parameter " ++
            c3EmbField.name))
        {} (.structT "W") (.structT "W") [c3AField] true :=
  ⟨C3_self_embedding_skipped_and_terminates.1 2 { env := c3Env } (.structT "W")
      (.structT "W") c3EmbField [c3AField] { type := "object" } rfl rfl rfl rfl,
   C3_self_embedding_skipped_and_terminates.2.1 2 { env := c3Env } {} (.structT "W")
      (.structT "W") c3EmbField [c3AField] true rfl rfl rfl rfl⟩

/-- A struct field that the parameter walk actually examines as a parameter
candidate: exported, and not an embedded struct (embedded structs are
recursed into or skipped instead). -/
def paramCandidate (f : GoStructField) : Prop :=
  f.pkgPath = "" ∧ ¬(f.anonymous = true ∧ f.typ.deref1.kind = .structK)

instance (f : GoStructField) : Decidable (paramCandidate f) := by
  unfold paramCandidate; infer_instance

/-- More than one location-tag hit makes `paramLocation` fail. -/
theorem paramLocation_conflict (g : Gen) (f : GoStructField) (inT : GoType)
    (h : 1 < (locationTagHits g.config f).length) :
    paramLocation g f inT =
      .error ("field " ++ f.name ++ " of " ++ g.typeName inT ++
        " has conflicting parameter location") := by
  unfold paramLocation
  rw [if_neg (by omega), if_pos h]

/-- More than one location-tag hit makes `newParameterFromField` report the
conflict without touching the state. -/
theorem newParameterFromField_conflict (fuel : Nat) (g : Gen) (f : GoStructField)
    (t : GoType) (h : 1 < (locationTagHits g.config f).length) :
    newParameterFromField fuel g f t =
      some (g, none, some ("field " ++ f.name ++ " of " ++ g.typeName t ++
        " has conflicting parameter location")) := by
  unfold newParameterFromField
  rw [paramLocation_conflict g f t h]

/-- More than one location-tag hit makes `addStructFieldToOperation` report
the conflict without touching state or operation. -/
theorem addStructFieldToOperation_conflict (fuel : Nat) (g : Gen) (op : Operation)
    (t : GoType) (sf : GoStructField) (ab : Bool)
    (h : 1 < (locationTagHits g.config sf).length) :
    addStructFieldToOperation fuel g op t sf ab =
      some (g, op, some ("field " ++ sf.name ++ " of " ++ g.typeName t ++
        " has conflicting parameter location")) := by
  unfold addStructFieldToOperation
  rw [newParameterFromField_conflict fuel g sf t h]

/-- A conflicting parameter candidate anywhere in the field list makes the
parameter walk fail (or run out of fuel). -/
theorem setOperationParamsFields_conflict :
    ∀ (fuel : Nat) (fs : List GoStructField) (g : Gen) (op : Operation)
      (t parent : GoType) (ab : Bool),
      (∃ f ∈ fs, paramCandidate f ∧ 1 < (locationTagHits g.config f).length) →
      setOperationParamsFields fuel g op t parent fs ab = none ∨
      ∃ g' op' e, setOperationParamsFields fuel g op t parent fs ab =
        some (g', op', some e) := by
  intro fuel
  cases fuel with
  | zero => intro fs g op t parent ab _; left; simp only [setOperationParamsFields]
  | succ n =>
    intro fs
    induction fs with
    | nil =>
      intro g op t parent ab h
      simp at h
    | cons sf rest ih =>
      intro g op t parent ab h
      obtain ⟨f, hf, hcand, hhits⟩ := h
      by_cases hpkg : sf.pkgPath ≠ ""
      · have hfr : f ∈ rest := by
          rcases List.mem_cons.mp hf with he | hr
          · exact absurd (he ▸ hcand.1) hpkg
          · exact hr
        have step : setOperationParamsFields (n + 1) g op t parent (sf :: rest) ab =
            setOperationParamsFields (n + 1) g op t parent rest ab := by
          simp only [setOperationParamsFields]
          rw [if_pos hpkg]
        rw [step]
        exact ih g op t parent ab ⟨f, hfr, hcand, hhits⟩
      · have hpkg' : ¬sf.pkgPath ≠ "" := hpkg
        by_cases hanon : sf.anonymous = true ∧ sf.typ.deref1.kind = .structK
        · have hfr : f ∈ rest := by
            rcases List.mem_cons.mp hf with he | hr
            · exact absurd (he ▸ hanon) hcand.2
            · exact hr
          by_cases hpar : sf.typ.deref1 = parent
          · have step : setOperationParamsFields (n + 1) g op t parent (sf :: rest) ab =
                setOperationParamsFields (n + 1)
                  (g.addError ("skipped recursive embeding of type " ++ g.typeName parent ++
                    " for parameter " ++ sf.name)) op t parent rest ab := by
              simp only [setOperationParamsFields]
              rw [if_neg hpkg', if_pos hanon, if_pos hpar]
            rw [step]
            exact ih _ op t parent ab ⟨f, hfr, hcand, hhits⟩
          · cases hsp : setOperationParams n g op sf.typ.deref1 parent ab with
            | none =>
              left
              simp only [setOperationParamsFields]
              rw [if_neg hpkg', if_pos hanon, if_neg hpar]
              simp only [hsp]
            | some trip =>
              obtain ⟨g1, op1, e1⟩ := trip
              have step : setOperationParamsFields (n + 1) g op t parent (sf :: rest) ab =
                  match e1 with
                  | some e => some (g1, op1, some e)
                  | none => setOperationParamsFields (n + 1) g1 op1 t parent rest ab := by
                simp only [setOperationParamsFields]
                rw [if_neg hpkg', if_pos hanon, if_neg hpar]
                simp only [hsp]
                cases e1 <;> rfl
              cases e1 with
              | some e =>
                right
                exact ⟨g1, op1, e, step⟩
              | none =>
                rw [step]
                have hcfg : g1.config = g.config :=
                  (genStep_setOperationParams_all.1 n g op sf.typ.deref1 parent ab
                    g1 op1 none hsp).2.1
                exact ih g1 op1 t parent ab ⟨f, hfr, hcand, by rw [hcfg]; exact hhits⟩
        · by_cases hsfh : 1 < (locationTagHits g.config sf).length
          · right
            refine ⟨g, op, "field " ++ sf.name ++ " of " ++ g.typeName t ++
              " has conflicting parameter location", ?_⟩
            simp only [setOperationParamsFields]
            rw [if_neg hpkg', if_neg hanon,
              addStructFieldToOperation_conflict n g op t sf ab hsfh]
          · have hfr : f ∈ rest := by
              rcases List.mem_cons.mp hf with he | hr
              · exact absurd (he ▸ hhits) hsfh
              · exact hr
            cases hstep : addStructFieldToOperation n g op t sf ab with
            | none =>
              left
              simp only [setOperationParamsFields]
              rw [if_neg hpkg', if_neg hanon]
              simp only [hstep]
            | some trip =>
              obtain ⟨g1, op1, e1⟩ := trip
              have step : setOperationParamsFields (n + 1) g op t parent (sf :: rest) ab =
                  match e1 with
                  | some e => some (g1, op1, some e)
                  | none => setOperationParamsFields (n + 1) g1 op1 t parent rest ab := by
                simp only [setOperationParamsFields]
                rw [if_neg hpkg', if_neg hanon]
                simp only [hstep]
                cases e1 <;> rfl
              cases e1 with
              | some e =>
                right
                exact ⟨g1, op1, e, step⟩
              | none =>
                rw [step]
                have hcfg : g1.config = g.config :=
                  (genStep_addStructFieldToOperation n g op t sf ab g1 op1 none hstep).2.1
                exact ih g1 op1 t parent ab ⟨f, hfr, hcand, by rw [hcfg]; exact hhits⟩

/-- A conflicting parameter candidate among the fields of the input struct
makes the whole parameter pass fail (or run out of fuel). -/
theorem setOperationParams_conflict (fuel : Nat) (g : Gen) (op : Operation)
    (t parent : GoType) (ab : Bool)
    (h : ∃ f ∈ fieldsOf g.env t, paramCandidate f ∧
      1 < (locationTagHits g.config f).length) :
    setOperationParams fuel g op t parent ab = none ∨
    ∃ g' op' e, setOperationParams fuel g op t parent ab = some (g', op', some e) := by
  cases fuel with
  | zero => left; simp only [setOperationParams]
  | succ n =>
    have hk : t.kind = .structK := by
      obtain ⟨f, hfmem, -⟩ := h
      by_contra hk
      cases t <;> simp_all [fieldsOf, GoType.kind]
    rcases setOperationParamsFields_conflict n (fieldsOf g.env t) g op t parent ab h with
      hnone | ⟨g1, op1, e1, hsome⟩
    · left
      simp only [setOperationParams]
      rw [if_neg (by simp [hk])]
      simp only [hnone]
    · right
      refine ⟨g1, op1, e1, ?_⟩
      simp only [setOperationParams]
      rw [if_neg (by simp [hk])]
      simp only [hsome]

/-- With a conflicting candidate among the fields, the parameter pass can
never succeed without an error. -/
theorem setOperationParams_no_success (fuel : Nat) (g : Gen) (op : Operation)
    (t parent : GoType) (ab : Bool) (g1 : Gen) (op1 : Operation)
    (heq : setOperationParams fuel g op t parent ab = some (g1, op1, none))
    (h : ∃ f ∈ fieldsOf g.env t, paramCandidate f ∧
      1 < (locationTagHits g.config f).length) : False := by
  rcases setOperationParams_conflict fuel g op t parent ab h with hn | ⟨a, b, c, hs⟩
  · rw [heq] at hn; exact absurd hn (by simp)
  · rw [heq] at hs; simp at hs

/-- C5: a field of the input struct carrying more than one location tag (and
examined as a parameter candidate: exported, not an embedded struct) makes
`AddOperation` return a generation error, and the path map afterwards holds
only the fresh (or pre-existing) bare path item for the rewritten path — the
partial operation never reaches a method slot. -/
theorem C5_conflicting_location_is_error (fuel : Nat) (g : Gen)
    (path method tag id : String) (inT : GoType) (outT : Option GoType)
    (info : OperationInfo) (g' : Gen) (r : Option String)
    (hconf : ∃ f ∈ fieldsOf g.env inT.deref1,
      paramCandidate f ∧ 1 < (locationTagHits g.config f).length)
    (hrun : AddOperation fuel g path method tag id (some inT) outT info = some (g', r)) :
    (∃ msg, r = some msg) ∧
    g'.paths = listInsert g.paths (rewritePath path)
      ((listGet g.paths (rewritePath path)).getD {}) := by
  cases fuel with
  | zero => exact absurd hrun (by simp [AddOperation])
  | succ n =>
    simp only [AddOperation] at hrun
    split at hrun
    · exact absurd hrun (by simp)
    · rename_i gg x e heq
      split at heq
      · simp only [Option.some.injEq, Prod.mk.injEq] at heq hrun
        obtain ⟨rfl, -, he⟩ := heq
        obtain ⟨rfl, hr⟩ := hrun
        exact ⟨⟨e, hr.symm⟩, rfl⟩
      · have hstep := genStep_setOperationParams_all.1 _ _ _ _ _ _ _ _ _ heq
        simp only [Option.some.injEq, Prod.mk.injEq] at hrun
        obtain ⟨rfl, hr⟩ := hrun
        refine ⟨⟨e, hr.symm⟩, ?_⟩
        rw [hstep.2.2.1]
    · rename_i gg opp heq
      split at heq
      · exact absurd heq (by simp)
      · exact (setOperationParams_no_success _ _ _ _ _ _ _ _ heq hconf).elim

/-- The doubly-tagged field of the C5 witness. -/
def c5Field : GoStructField :=
  { name := "ID", typ := .stringT, tags := [("path", "id"), ("query", "id")],
    pkgPath := "", anonymous := false }

/-- Environment holding the struct of the C5 witness. -/
def c5Env : TypeEnv := [("C5", { pkg := "pkg", name := "C5", fields := [c5Field] })]

/-- The rewritten path of the C5 witness. -/
def c5Path : String := rewritePath "/x/:id"

/-- The conflict message of the C5 witness. -/
def c5Msg : String := "field ID of PkgC5 has conflicting parameter location"

/-- The generator state after the failed registration: only the bare path
item was inserted. -/
def c5ResultGen : Gen := { env := c5Env, paths := [(c5Path, {})] }

/-- Witness for C5: a field tagged both path and query makes the concrete
AddOperation call fail with the conflict error while the path map holds the
bare path item. -/
theorem C5_conflicting_location_is_error_witness :
    AddOperation 6 { env := c5Env } "/x/:id" "GET" "" "op" (some (.structT "C5"))
        none {} = some (c5ResultGen, some c5Msg) ∧
    (∃ msg, (some c5Msg : Option String) = some msg) ∧
    c5ResultGen.paths = listInsert ({ env := c5Env } : Gen).paths (rewritePath "/x/:id")
      ((listGet ({ env := c5Env } : Gen).paths (rewritePath "/x/:id")).getD {}) := by
  have hrun : AddOperation 6 { env := c5Env } "/x/:id" "GET" "" "op"
      (some (.structT "C5")) none {} = some (c5ResultGen, some c5Msg) := by
    with_unfolding_all rfl
  exact ⟨hrun, C5_conflicting_location_is_error 6 { env := c5Env } "/x/:id" "GET" ""
    "op" (.structT "C5") none {} c5ResultGen (some c5Msg) (by decide) hrun⟩

end Fizz
